import Mathlib

/-
Worker provisioning (`functions/index.js`).

A shallow embedding of the callable `createWorkerAccount` and of its helper
`generateWorkerId`, and the properties of the provisioning protocol.

Modelling choices:

* The identity store (Firebase Auth) and the two Firestore collections `workers` and
  `users` are explicit state. A call returns its result, the state it leaves and the
  awaited calls it issued, in order.
* Every awaited call may be rejected by its collaborator. The rejection a call meets,
  the identifier the identity store gives to a new account and the value of the clock
  are read from an `Env` value, so that every failure mode is an input.
* Rejections of the identity store carry a string code, rejections of the record store a
  numeric status; the handler compares codes with strings by `===`.
* The request fields are typed as the interface states them: `email` and `password`
  are strings, `workerData` and `userData` are maps, and each may be absent. The payload
  itself may be missing (`null`).
* Documents are lists of fields with flat scalar values. The allocation query orders
  values as the record store does: by type, strings by code points.
* JavaScript numbers are exact integers here. This agrees with IEEE doubles as long as
  magnitudes stay below `2^53`; a statement that depends on the value of a parsed number
  carries that bound.
-/

namespace Fixmate

/- Documents -/

/-- Field values of a stored document or of a caller payload (flat scalars).
`serverTimestamp` is a timestamp assigned by the server; its instant is not modelled. -/
inductive Val where
  | null
  | bool (b : Bool)
  | num (n : Int)
  | serverTimestamp
  | str (s : String)
  deriving DecidableEq, Repr

/-- Lookup of the first binding of a key. -/
def assocGet {β : Type} : List (String × β) → String → Option β
  | [], _ => none
  | (k, v) :: rest, key => if k = key then some v else assocGet rest key

/-- Overwrite the binding of a key in place, or add it at the end. -/
def assocSet {β : Type} : List (String × β) → String → β → List (String × β)
  | [], key, val => [(key, val)]
  | (k, v) :: rest, key, val =>
    if k = key then (key, val) :: rest else (k, v) :: assocSet rest key val

/-- A document or payload: field name to value. -/
abbrev Doc := List (String × Val)

/-- A collection: document id to document data. -/
abbrev Collection := List (String × Doc)

/- Stores and failures -/

/-- A user record of the identity store. -/
structure Account where
  uid : String
  email : String
  password : String
  emailVerified : Bool
  disabled : Bool
  deriving DecidableEq, Repr

/-- Identity store plus the two collections. -/
structure State where
  accounts : List Account
  workers : Collection
  users : Collection
  deriving DecidableEq, Repr

/-- A rejection of the identity store: `code` is a string such as
`"auth/user-not-found"`. -/
structure AuthError where
  code : String
  message : String
  deriving DecidableEq, Repr

/-- A rejection of the record store: `code` is a numeric status. -/
structure StoreError where
  code : Nat
  message : String
  deriving DecidableEq, Repr

/-- Values that can be thrown inside the handler. -/
inductive JsError where
  | auth (e : AuthError)
  | store (e : StoreError)
  deriving DecidableEq, Repr

/-- The expression `error.message`. -/
def JsError.message : JsError → String
  | .auth e => e.message
  | .store e => e.message

/-- The test `error.code === c` for a string `c`: a numeric or missing code never
equals a string. -/
def JsError.codeIs : JsError → String → Bool
  | .auth e, c => e.code == c
  | .store _, _ => false

/-- The error raised to the caller, `functions.https.HttpsError(code, message)`. -/
structure HttpsError where
  code : String
  message : String
  deriving DecidableEq, Repr

/-- The success object. `workerId` is a document field on the short-circuit path, so it
is a `Val` and may be missing. -/
structure Response where
  success : Bool
  workerUid : String
  workerId : Option Val
  message : String
  alreadyExists : Bool
  deriving DecidableEq, Repr

/-- How a call ends: with the success object, with an `HttpsError`, or with a
`TypeError` that leaves the handler as it is (not an `HttpsError`). -/
inductive CallResult where
  | ok (r : Response)
  | error (e : HttpsError)
  | typeError
  deriving DecidableEq, Repr

/-- The awaited calls. -/
inductive Effect where
  | getUserByEmail (email : String)
  | workerGet (uid : String)
  | createUser (email : String)
  | workerQuery
  | batchCommit (uid : String)
  deriving DecidableEq, Repr

/-- What the surroundings decide during one call: rejections of the collaborators, the
identifier the identity store assigns to a new account, and the clock. -/
structure Env where
  lookupFault : Option AuthError
  getFault : Option StoreError
  createFault : Option AuthError
  newUid : String
  queryFault : Option StoreError
  now : Nat
  commitFault : Option StoreError
  deriving DecidableEq, Repr

/-- The fields of a request payload `data` that is an object; `none` is an absent
(`undefined` or `null`) field. -/
structure CallData where
  email : Option String
  password : Option String
  workerData : Option Doc
  userData : Option Doc
  deriving DecidableEq, Repr

/-- Result, final state and issued I/O of one call. -/
structure Outcome where
  result : CallResult
  state : State
  trace : List Effect
  deriving DecidableEq, Repr

/- String helpers of the allocator -/

/-- White space skipped by `parseInt` (WhiteSpace and LineTerminator). -/
def isStrWhiteSpace (c : Char) : Bool :=
  let n := c.toNat
  n = 0x9 || n = 0xA || n = 0xB || n = 0xC || n = 0xD || n = 0x20 || n = 0xA0
    || n = 0x1680 || (0x2000 ≤ n && n ≤ 0x200A) || n = 0x2028 || n = 0x2029
    || n = 0x202F || n = 0x205F || n = 0x3000 || n = 0xFEFF

/-- Value of a digit in the given radix (10 or 16). -/
def digitValue (radix : Nat) (c : Char) : Option Nat :=
  let n := c.toNat
  if 48 ≤ n ∧ n ≤ 57 then some (n - 48)
  else if radix = 16 ∧ 97 ≤ n ∧ n ≤ 102 then some (n - 87)
  else if radix = 16 ∧ 65 ≤ n ∧ n ≤ 70 then some (n - 55)
  else none

/-- Value of a run of digits, most significant first. -/
def digitsValue (radix : Nat) (ds : List Char) : Nat :=
  ds.foldl (fun acc c => acc * radix + (digitValue radix c).getD 0) 0

/-- Sign handling of `parseInt`: a leading `-` or `+` is removed; the flag tells whether
the sign is negative. -/
def stripSign : List Char → Bool × List Char
  | [] => (false, [])
  | c :: t => if c = '-' then (true, t) else if c = '+' then (false, t) else (false, c :: t)

/-- Radix detection of `parseInt` without a radix argument: a leading `0x` or `0X` is
removed and selects radix 16; otherwise radix 10. -/
def stripRadix : List Char → Nat × List Char
  | c0 :: c1 :: t =>
    if c0 = '0' ∧ (c1 = 'x' ∨ c1 = 'X') then (16, t) else (10, c0 :: c1 :: t)
  | s => (10, s)

/-- Global `parseInt(s)` without a radix argument; `none` is `NaN`. -/
def parseInt (s : List Char) : Option Int :=
  let signed := stripSign (s.dropWhile isStrWhiteSpace)
  let radixed := stripRadix signed.2
  let z := radixed.2.takeWhile (fun c => (digitValue radixed.1 c).isSome)
  if z = [] then none
  else if signed.1 then some (-(digitsValue radixed.1 z : Int))
  else some (digitsValue radixed.1 z : Int)

/-- `s.replace(pat, rep)` with a string pattern: the first occurrence only. -/
def replaceFirst (pat rep : List Char) : List Char → List Char
  | [] => if pat = [] then rep else []
  | c :: cs =>
    if pat.isPrefixOf (c :: cs) then rep ++ (c :: cs).drop pat.length
    else c :: replaceFirst pat rep cs

/-- `s.padStart(targetLength, fill)` for a one-character fill. -/
def padStart (s : String) (targetLength : Nat) (fill : Char) : String :=
  String.mk (List.replicate (targetLength - s.length) fill ++ s.data)

/-- `n.toString()` for an integer-valued number. -/
def numberToString (n : Int) : String := toString n

/-- The template `HM_${nextNumber.toString().padStart(4, "0")}`. -/
def formatWorkerId (nextNumber : Int) : String :=
  "HM_" ++ padStart (numberToString nextNumber) 4 '0'

/- The allocation query -/

/-- Rank of the type of a value in the ordering of the record store. -/
def valRank : Val → Nat
  | .null => 0
  | .bool _ => 1
  | .num _ => 2
  | .serverTimestamp => 3
  | .str _ => 4

/-- Strict ordering of field values: by type first, then within the type; strings by
code points. -/
def valLt : Val → Val → Bool
  | .str a, .str b => decide (a.data < b.data)
  | .num a, .num b => decide (a < b)
  | .bool a, .bool b => !a && b
  | a, b => decide (valRank a < valRank b)

/-- One step of the scan for the greatest `worker_id`: documents without the field are
skipped. -/
def keepGreater (best : Option Val) (entry : String × Doc) : Option Val :=
  match assocGet entry.2 "worker_id" with
  | none => best
  | some v =>
    match best with
    | none => some v
    | some b => if valLt b v then some v else some b

/-- Field `worker_id` of the first document of
`orderBy("worker_id", "desc").limit(1)`: the greatest `worker_id` among the documents
that have the field; `none` when the snapshot is empty. -/
def topWorkerId (workers : Collection) : Option Val :=
  workers.foldl keepGreater none

/-- The fallback of the allocator, `HM_${Date.now()}`. -/
def fallbackWorkerId (now : Nat) : String := "HM_" ++ toString now

/-- Helper `generateWorkerId`. `queryFault` is the rejection of the query, if any, and
`now` the value of `Date.now()`. A `worker_id` that is not a string has no `replace`
method: the call throws inside the `try` and the fallback is returned. -/
def generateWorkerId (workers : Collection) (queryFault : Option StoreError) (now : Nat) :
    String :=
  match queryFault with
  | some _ => fallbackWorkerId now
  | none =>
    match topWorkerId workers with
    | none => formatWorkerId 1
    | some (.str lastWorkerId) =>
      let numberPart := replaceFirst "HM_".data [] lastWorkerId.data
      let lastNumber : Int := (parseInt numberPart).getD 0
      let nextNumber := lastNumber + 1
      formatWorkerId nextNumber
    | some _ => fallbackWorkerId now

/- The callable -/

/-- Rejection of `getUserByEmail` for an unknown email. -/
def userNotFound : AuthError :=
  ⟨"auth/user-not-found",
    "There is no user record corresponding to the provided identifier."⟩

/-- Rejection of `createUser` for an email already in use. -/
def emailAlreadyExists : AuthError :=
  ⟨"auth/email-already-exists",
    "The email address is already in use by another account."⟩

/-- Identity store: `admin.auth().getUserByEmail(email)`. -/
def getUserByEmail (env : Env) (st : State) (email : String) : Except AuthError Account :=
  match env.lookupFault with
  | some e => .error e
  | none =>
    match st.accounts.find? (fun a => a.email = email) with
    | some a => .ok a
    | none => .error userNotFound

/-- Identity store: `admin.auth().createUser(..)`; emails are unique. -/
def createUser (env : Env) (st : State) (email password : String) :
    Except AuthError (Account × State) :=
  match env.createFault with
  | some e => .error e
  | none =>
    if st.accounts.any (fun a => a.email = email) then .error emailAlreadyExists
    else
      let a : Account :=
        { uid := env.newUid, email := email, password := password,
          emailVerified := false, disabled := false }
      .ok (a, { st with accounts := st.accounts ++ [a] })

/-- The outer `catch`: the error reported to the caller. -/
def reportFailure (error : JsError) : HttpsError :=
  if error.codeIs "auth/email-already-exists" then
    ⟨"already-exists", "Worker with this email already exists"⟩
  else
    ⟨"internal", "Failed to create worker: " ++ error.message⟩

/-- The object `{...workerData, worker_id, created_at, last_active}`. -/
def completeWorkerData (workerData : Doc) (workerId : String) : Doc :=
  assocSet (assocSet (assocSet workerData "worker_id" (.str workerId))
    "created_at" .serverTimestamp) "last_active" .serverTimestamp

/-- The object `{...userData, uid, worker_id, createdAt, lastLogin}`. -/
def completeUserData (userData : Doc) (workerUid workerId : String) : Doc :=
  assocSet (assocSet (assocSet (assocSet userData "uid" (.str workerUid))
    "worker_id" (.str workerId)) "createdAt" .serverTimestamp) "lastLogin" .serverTimestamp

/-- Steps 5 and 6 of the handler: allocate the identifier and commit the batch that sets
both documents. A rejected batch writes nothing. -/
def writeRecords (env : Env) (st : State) (tr : List Effect) (workerUid : String)
    (alreadyExists : Bool) (workerData userData : Doc) : Outcome :=
  let workerId := generateWorkerId st.workers env.queryFault env.now
  let tr := tr ++ [Effect.workerQuery, Effect.batchCommit workerUid]
  match env.commitFault with
  | some e => ⟨.error (reportFailure (.store e)), st, tr⟩
  | none =>
    ⟨.ok
        { success := true
          workerUid := workerUid
          workerId := some (.str workerId)
          message :=
            if alreadyExists then "Worker account already exists"
            else "Worker account created successfully"
          alreadyExists := alreadyExists },
      { st with
        workers := assocSet st.workers workerUid (completeWorkerData workerData workerId)
        users := assocSet st.users workerUid
          (completeUserData userData workerUid workerId) },
      tr⟩

/-- Step 4 onwards: create the account when `userRecord` is still unset, then write the
records. -/
def createAndWrite (env : Env) (st : State) (tr : List Effect)
    (userRecord : Option Account) (alreadyExists : Bool)
    (email password : String) (workerData userData : Doc) : Outcome :=
  match userRecord with
  | some u => writeRecords env st tr u.uid alreadyExists workerData userData
  | none =>
    let tr := tr ++ [Effect.createUser email]
    match createUser env st email password with
    | .error e => ⟨.error (reportFailure (.auth e)), st, tr⟩
    | .ok (u, st1) => writeRecords env st1 tr u.uid alreadyExists workerData userData

/-- The inner `catch`: an error whose code is not `"auth/user-not-found"` is thrown
again and reaches the outer `catch`; otherwise the flow continues with the locals as
they are. -/
def innerCatch (env : Env) (st : State) (tr : List Effect) (error : JsError)
    (userRecord : Option Account) (alreadyExists : Bool)
    (email password : String) (workerData userData : Doc) : Outcome :=
  if !error.codeIs "auth/user-not-found" then ⟨.error (reportFailure error), st, tr⟩
  else createAndWrite env st tr userRecord alreadyExists email password workerData userData

/-- The body of the outer `try`, entered with all four fields present. -/
def tryBlock (env : Env) (st : State) (email password : String)
    (workerData userData : Doc) : Outcome :=
  let tr := [Effect.getUserByEmail email]
  match getUserByEmail env st email with
  | .error e =>
    innerCatch env st tr (.auth e) none false email password workerData userData
  | .ok userRecord =>
    let tr := tr ++ [Effect.workerGet userRecord.uid]
    match env.getFault with
    | some e =>
      innerCatch env st tr (.store e) (some userRecord) true email password
        workerData userData
    | none =>
      match assocGet st.workers userRecord.uid with
      | some existingWorker =>
        ⟨.ok
            { success := true
              workerUid := userRecord.uid
              workerId := assocGet existingWorker "worker_id"
              message := "Worker already exists"
              alreadyExists := true },
          st, tr⟩
      | none =>
        createAndWrite env st tr (some userRecord) true email password
          workerData userData

/-- The callable `createWorkerAccount`. `auth` says whether `context.auth` is set, and
`data = none` is a call without payload (`data` is `null` or `undefined`): the
destructuring
`const {email, password, workerData, userData} = data` stands before the guard and
outside the `try`, so it throws a `TypeError` there. A string field is falsy when
absent or empty, a map only when absent. -/
def createWorkerAccount (env : Env) (st : State) (auth : Bool) (data : Option CallData) :
    Outcome :=
  if !auth then
    ⟨.error ⟨"unauthenticated", "Customer must be authenticated"⟩, st, []⟩
  else
    match data with
    | none => ⟨.typeError, st, []⟩
    | some fields =>
      match fields.email, fields.password, fields.workerData, fields.userData with
      | some email, some password, some workerData, some userData =>
        if email = "" ∨ password = "" then
          ⟨.error ⟨"invalid-argument", "Missing required fields"⟩, st, []⟩
        else tryBlock env st email password workerData userData
      | _, _, _, _ => ⟨.error ⟨"invalid-argument", "Missing required fields"⟩, st, []⟩

/- Concrete inputs -/

/-- The state with no account and no document. -/
def emptyState : State := ⟨[], [], []⟩

/-- Surroundings in which no collaborator rejects a call. -/
def quietEnv (uid : String) : Env :=
  { lookupFault := none, getFault := none, createFault := none, newUid := uid,
    queryFault := none, now := 1700000000000, commitFault := none }

/-- A complete request of the end-to-end example. -/
def sampleData : CallData :=
  ⟨some "w1@x.com", some "pass-1234", some [("name", .str "A")],
    some [("name", .str "A")]⟩

/-- Surroundings in which `createUser` is rejected because another request has just
registered the email. -/
def racingEnv : Env :=
  { lookupFault := none, getFault := none, createFault := some emailAlreadyExists,
    newUid := "U1", queryFault := none, now := 1700000000000, commitFault := none }

/-- Surroundings in which the allocation query is rejected. -/
def queryDownEnv : Env :=
  { lookupFault := none, getFault := none, createFault := none,
    newUid := "U1", queryFault := some ⟨14, "unavailable"⟩, now := 1700000000000,
    commitFault := none }

/-- Surroundings in which the batch is rejected. -/
def commitDownEnv : Env :=
  { lookupFault := none, getFault := none, createFault := none,
    newUid := "U1", queryFault := none, now := 1700000000000,
    commitFault := some ⟨7, "permission denied"⟩ }

/-- A state with a registered customer: an account and a user document, no worker
document. -/
def customerState : State :=
  ⟨[⟨"U9", "w1@x.com", "pass-0000", false, false⟩], [],
    [("U9", [("name", .str "C"), ("role", .str "customer")])]⟩

/-- A state with an account that has no records yet. -/
def orphanState : State :=
  ⟨[⟨"U9", "w1@x.com", "pass-0000", false, false⟩], [], []⟩

/-- A state with one worker, whose two records agree. -/
def oneWorkerState : State :=
  ⟨[⟨"U1", "w1@x.com", "pass-1234", false, false⟩],
    [("U1", [("name", .str "A"), ("worker_id", .str "HM_0001")])],
    [("U1", [("uid", .str "U1"), ("worker_id", .str "HM_0001")])]⟩

/-- A request whose payloads carry the keys that the handler assigns. -/
def clashingData : CallData :=
  ⟨some "w2@x.com", some "pass-1234",
    some [("worker_id", .str "HM_7777"), ("uid", .str "X")],
    some [("uid", .str "Y"), ("worker_id", .num 5)]⟩

/-- Worker documents holding `HM_0001` to `HM_0007`, in no particular order. -/
def sevenWorkers : Collection :=
  [("u1", [("worker_id", .str "HM_0001")]), ("u2", [("worker_id", .str "HM_0002")]),
   ("u3", [("worker_id", .str "HM_0003")]), ("u7", [("worker_id", .str "HM_0007")]),
   ("u4", [("worker_id", .str "HM_0004")]), ("u5", [("worker_id", .str "HM_0005")]),
   ("u6", [("name", .str "B"), ("worker_id", .str "HM_0006")])]

/- Predicates of the claims -/

/-- The pairing of the two collections: a document id has a worker document exactly when
it has a user document, and then the two carry the same `worker_id`. -/
def Paired (st : State) : Prop :=
  ∀ uid : String,
    ((assocGet st.workers uid).isSome ↔ (assocGet st.users uid).isSome) ∧
      ∀ w u, assocGet st.workers uid = some w → assocGet st.users uid = some u →
        assocGet w "worker_id" = assocGet u "worker_id"

/-- A request that the validation rejects: a field is absent, or a string field is
empty. -/
def missingField (data : CallData) : Prop :=
  data.email = none ∨ data.email = some "" ∨ data.password = none ∨
    data.password = some "" ∨ data.workerData = none ∨ data.userData = none

instance (data : CallData) : Decidable (missingField data) := by
  unfold missingField
  infer_instance

/-- An effect of the lookup phase: neither the allocation query nor the batch. -/
def Effect.isLookupPhase : Effect → Bool
  | .workerQuery => false
  | .batchCommit _ => false
  | _ => true

/-- Largest integer up to which every integer is a double, `Number.MAX_SAFE_INTEGER`. -/
def maxSafeInteger : Nat := 2 ^ 53 - 1

/-- The reading of a stored identifier in the words of the specification: the prefix is
stripped and the remainder is read as a decimal numeral; an empty or non-numeric
remainder counts as 0. -/
def specLastNumber (m : String) : Nat :=
  let r := if "HM_".data.isPrefixOf m.data then m.data.drop 3 else m.data
  if r ≠ [] ∧ r.all (fun c => (digitValue 10 c).isSome) then digitsValue 10 r else 0

/-- The next identifier in the words of the specification. -/
def specNextWorkerId (m : String) : String :=
  formatWorkerId ((specLastNumber m + 1 : Nat) : Int)

/- A long run of provisionings -/

/-- The four decimal digits of a number below 10000. -/
def fourDigits (n : Nat) : List Char :=
  [Nat.digitChar (n / 1000), Nat.digitChar (n / 100 % 10), Nat.digitChar (n / 10 % 10),
    Nat.digitChar (n % 10)]

/-- The five decimal digits of a number below 100000. -/
def fiveDigits (i : Nat) : List Char :=
  [Nat.digitChar (i / 10000 % 10), Nat.digitChar (i / 1000 % 10),
    Nat.digitChar (i / 100 % 10), Nat.digitChar (i / 10 % 10), Nat.digitChar (i % 10)]

/-- Email of the call number `i` of the run, such as `w00042@x.com`. -/
def nthEmail (i : Nat) : String := String.mk ('w' :: fiveDigits i ++ "@x.com".data)

/-- Identifier that the identity store assigns in call number `i`, such as `u00042`. -/
def nthUid (i : Nat) : String := String.mk ('u' :: fiveDigits i)

/-- Call number `i` of the run: no collaborator rejects anything. -/
def nthCall (i : Nat) : Env × CallData :=
  (quietEnv (nthUid i),
    ⟨some (nthEmail i), some "pass-1234", some [("name", .str "A")],
      some [("name", .str "A")]⟩)

/-- The first `n` calls of the run. -/
def newWorkerCalls (n : Nat) : List (Env × CallData) := (List.range n).map nthCall

/-- Successive authenticated calls, each on the state that the previous one left: the
final state and the outcomes in order. -/
def runCalls (st : State) (calls : List (Env × CallData)) : State × List Outcome :=
  calls.foldl
    (fun acc call =>
      ((createWorkerAccount call.1 acc.1 true (some call.2)).state,
        acc.2 ++ [createWorkerAccount call.1 acc.1 true (some call.2)]))
    (st, [])

/-- Identifier returned by call number `i` of the run. -/
def idAt (i : Nat) : String := formatWorkerId ((min i 9999 + 1 : Nat) : Int)

/-- Account created by call number `i`. -/
def accountAt (i : Nat) : Account := ⟨nthUid i, nthEmail i, "pass-1234", false, false⟩

/-- Worker document written by call number `i`. -/
def workerAt (i : Nat) : String × Doc :=
  (nthUid i, completeWorkerData [("name", .str "A")] (idAt i))

/-- User document written by call number `i`. -/
def userAt (i : Nat) : String × Doc :=
  (nthUid i, completeUserData [("name", .str "A")] (nthUid i) (idAt i))

/-- State after the first `n` calls of the run. -/
def stateAfter (n : Nat) : State :=
  ⟨(List.range n).map accountAt, (List.range n).map workerAt, (List.range n).map userAt⟩

/-- Outcome of call number `i` of the run. -/
def outcomeAt (i : Nat) : Outcome :=
  ⟨.ok ⟨true, nthUid i, some (.str (idAt i)), "Worker account created successfully", false⟩,
    stateAfter (i + 1),
    [Effect.getUserByEmail (nthEmail i), Effect.createUser (nthEmail i), Effect.workerQuery,
      Effect.batchCommit (nthUid i)]⟩

/- Lemmas on association lists -/

/-- Reading a key right after it was set returns the value that was set. -/
theorem assocGet_assocSet_same {β : Type} (l : List (String × β)) (k : String) (v : β) :
    assocGet (assocSet l k v) k = some v := by
  induction l with
  | nil => simp [assocSet, assocGet]
  | cons hd tl ih =>
    obtain ⟨k0, v0⟩ := hd
    by_cases h : k0 = k
    · simp [assocSet, assocGet, h]
    · simp [assocSet, assocGet, h, ih]

/-- Setting a key does not change what another key reads. -/
theorem assocGet_assocSet_other {β : Type} (l : List (String × β)) (k k1 : String) (v : β)
    (h : k1 ≠ k) : assocGet (assocSet l k v) k1 = assocGet l k1 := by
  induction l with
  | nil => simp [assocSet, assocGet, Ne.symm h]
  | cons hd tl ih =>
    obtain ⟨k0, v0⟩ := hd
    by_cases h0 : k0 = k
    · subst h0
      simp [assocSet, assocGet, Ne.symm h]
    · by_cases h1 : k0 = k1
      · subst h1
        simp [assocSet, assocGet, h0]
      · simp [assocSet, assocGet, h0, h1, ih]

/-- The worker document that the handler builds carries the allocated identifier, also
when the payload has a `worker_id` key. -/
theorem workerData_worker_id (workerData : Doc) (workerId : String) :
    assocGet (completeWorkerData workerData workerId) "worker_id" = some (.str workerId) := by
  unfold completeWorkerData
  rw [assocGet_assocSet_other _ _ _ _ (by decide), assocGet_assocSet_other _ _ _ _ (by decide),
    assocGet_assocSet_same]

/-- The user document that the handler builds carries the allocated identifier, also
when the payload has a `worker_id` key. -/
theorem userData_worker_id (userData : Doc) (workerUid workerId : String) :
    assocGet (completeUserData userData workerUid workerId) "worker_id" =
      some (.str workerId) := by
  unfold completeUserData
  rw [assocGet_assocSet_other _ _ _ _ (by decide), assocGet_assocSet_other _ _ _ _ (by decide),
    assocGet_assocSet_same]

/-- An authenticated call with four present fields and non-empty strings enters the `try`
block. -/
theorem createWorkerAccount_valid (env : Env) (st : State) (email password : String)
    (workerData userData : Doc) (he : email ≠ "") (hp : password ≠ "") :
    createWorkerAccount env st true
        (some ⟨some email, some password, some workerData, some userData⟩)
      = tryBlock env st email password workerData userData := by
  simp [createWorkerAccount, he, hp]

/-- An email that the lookup does not find is not in use. -/
theorem find_none_any {st : State} {email : String}
    (h : st.accounts.find? (fun a => a.email = email) = none) :
    st.accounts.any (fun a => a.email = email) = false := by
  simpa [List.find?_eq_none, List.any_eq_false] using h

/-- A rejected batch: `internal` with the message of the cause, and the state as it was. -/
theorem writeRecords_rejected (env : Env) (st : State) (tr : List Effect) (uid : String)
    (ae : Bool) (wd ud : Doc) (e : StoreError) (h : env.commitFault = some e) :
    writeRecords env st tr uid ae wd ud =
      ⟨.error ⟨"internal", "Failed to create worker: " ++ e.message⟩, st,
        tr ++ [Effect.workerQuery, Effect.batchCommit uid]⟩ := by
  simp [writeRecords, h, reportFailure, JsError.codeIs, JsError.message]

/-- An accepted batch: success, and both documents set under the account identifier. -/
theorem writeRecords_committed (env : Env) (st : State) (tr : List Effect) (uid : String)
    (ae : Bool) (wd ud : Doc) (h : env.commitFault = none) :
    writeRecords env st tr uid ae wd ud =
      ⟨.ok ⟨true, uid, some (.str (generateWorkerId st.workers env.queryFault env.now)),
          if ae then "Worker account already exists"
          else "Worker account created successfully", ae⟩,
        { st with
          workers := assocSet st.workers uid
            (completeWorkerData wd (generateWorkerId st.workers env.queryFault env.now))
          users := assocSet st.users uid
            (completeUserData ud uid (generateWorkerId st.workers env.queryFault env.now)) },
        tr ++ [Effect.workerQuery, Effect.batchCommit uid]⟩ := by
  simp [writeRecords, h]

/-- The pairing only depends on the two collections. -/
theorem paired_of_same_records {st st1 : State} (hw : st1.workers = st.workers)
    (hu : st1.users = st.users) (h : Paired st) : Paired st1 := by
  intro uid
  rw [hw, hu]
  exact h uid

/-- Setting both documents of one identifier from the same allocated identifier keeps
the pairing. -/
theorem paired_set_both (st : State) (accounts : List Account) (uid w : String)
    (wd ud : Doc) (h : Paired st) :
    Paired ⟨accounts, assocSet st.workers uid (completeWorkerData wd w),
      assocSet st.users uid (completeUserData ud uid w)⟩ := by
  intro uid1
  by_cases hk : uid1 = uid
  · subst hk
    simp only [assocGet_assocSet_same]
    refine ⟨by simp, ?_⟩
    intro w1 u1 hw hu
    cases hw
    cases hu
    rw [workerData_worker_id, userData_worker_id]
  · simp only [assocGet_assocSet_other _ _ _ _ hk]
    exact h uid1

/-- Steps 5 and 6 keep the pairing. -/
theorem paired_writeRecords (env : Env) (st : State) (tr : List Effect) (uid : String)
    (ae : Bool) (wd ud : Doc) (h : Paired st) :
    Paired (writeRecords env st tr uid ae wd ud).state := by
  cases hc : env.commitFault with
  | some e => rw [writeRecords_rejected _ _ _ _ _ _ _ _ hc]; exact h
  | none =>
    rw [writeRecords_committed _ _ _ _ _ _ _ hc]
    exact paired_set_both st st.accounts uid _ wd ud h

/-- Steps 4 to 6 keep the pairing. -/
theorem paired_createAndWrite (env : Env) (st : State) (tr : List Effect)
    (userRecord : Option Account) (ae : Bool) (email password : String) (wd ud : Doc)
    (h : Paired st) :
    Paired (createAndWrite env st tr userRecord ae email password wd ud).state := by
  unfold createAndWrite
  cases userRecord with
  | some u => exact paired_writeRecords _ _ _ _ _ _ _ h
  | none =>
    simp only
    cases hcu : createUser env st email password with
    | error e => exact h
    | ok p =>
      obtain ⟨u, st1⟩ := p
      simp only
      apply paired_writeRecords
      unfold createUser at hcu
      split at hcu
      · cases hcu
      · split at hcu
        · cases hcu
        · cases hcu
          exact paired_of_same_records rfl rfl h

/-- Whatever the inner `catch` does keeps the pairing. -/
theorem paired_innerCatch (env : Env) (st : State) (tr : List Effect) (error : JsError)
    (userRecord : Option Account) (ae : Bool) (email password : String) (wd ud : Doc)
    (h : Paired st) :
    Paired (innerCatch env st tr error userRecord ae email password wd ud).state := by
  unfold innerCatch
  split
  · exact h
  · exact paired_createAndWrite _ _ _ _ _ _ _ _ _ h

/-- The `try` block keeps the pairing. -/
theorem paired_tryBlock (env : Env) (st : State) (email password : String) (wd ud : Doc)
    (h : Paired st) : Paired (tryBlock env st email password wd ud).state := by
  unfold tryBlock
  simp only
  split
  · exact paired_innerCatch _ _ _ _ _ _ _ _ _ _ h
  · split
    · exact paired_innerCatch _ _ _ _ _ _ _ _ _ _ h
    · split
      · exact h
      · exact paired_createAndWrite _ _ _ _ _ _ _ _ _ h

/-- C4: the pairing of worker and user documents is preserved by every call of
`createWorkerAccount`: authenticated or not, valid or not, with any payload (keys
`worker_id` and `uid` included) or none, and whatever the collaborators reject (lookup,
account creation, allocation query, batch). -/
theorem pairing_preserved (env : Env) (st : State) (auth : Bool)
    (data : Option CallData) (h : Paired st) :
    Paired (createWorkerAccount env st auth data).state := by
  unfold createWorkerAccount
  split
  · exact h
  · split
    · exact h
    · split
      · split
        · exact h
        · exact paired_tryBlock _ _ _ _ _ _ h
      · exact h

/-- The pairing holds on a state with one worker and still holds after a call whose
payloads carry `worker_id` and `uid`, with the batch rejected and with it accepted. -/
theorem pairing_preserved_witness :
    Paired oneWorkerState ∧
      Paired (createWorkerAccount commitDownEnv oneWorkerState true (some clashingData)).state ∧
      Paired (createWorkerAccount (quietEnv "U2") oneWorkerState true (some clashingData)).state :=
  have h : Paired oneWorkerState := by
    intro uid
    by_cases hu : uid = "U1"
    · subst hu
      refine ⟨by decide, ?_⟩
      intro w u hw hx
      simp only [oneWorkerState, assocGet, if_true, Option.some.injEq] at hw hx
      subst hw
      subst hx
      decide
    · have hu1 : ¬ "U1" = uid := fun h => hu h.symm
      refine ⟨by simp [oneWorkerState, assocGet, hu1], ?_⟩
      intro w u hw
      simp [oneWorkerState, assocGet, hu1] at hw
  ⟨h, pairing_preserved commitDownEnv oneWorkerState true (some clashingData) h,
    pairing_preserved (quietEnv "U2") oneWorkerState true (some clashingData) h⟩

/- The paths through the handler -/

/-- Short circuit: the account and its worker document exist. -/
theorem tryBlock_existing (env : Env) (st : State) (email password : String) (wd ud : Doc)
    (a : Account) (d : Doc) (hl : getUserByEmail env st email = .ok a)
    (hg : env.getFault = none) (hw : assocGet st.workers a.uid = some d) :
    tryBlock env st email password wd ud =
      ⟨.ok ⟨true, a.uid, assocGet d "worker_id", "Worker already exists", true⟩, st,
        [Effect.getUserByEmail email, Effect.workerGet a.uid]⟩ := by
  simp [tryBlock, hl, hg, hw]

/-- Repair: the account exists and has no worker document. -/
theorem tryBlock_repair (env : Env) (st : State) (email password : String) (wd ud : Doc)
    (a : Account) (hl : getUserByEmail env st email = .ok a)
    (hg : env.getFault = none) (hw : assocGet st.workers a.uid = none) :
    tryBlock env st email password wd ud =
      writeRecords env st [Effect.getUserByEmail email, Effect.workerGet a.uid] a.uid true
        wd ud := by
  simp [tryBlock, hl, hg, hw, createAndWrite]

/-- The read of the worker document is rejected. -/
theorem tryBlock_read_rejected (env : Env) (st : State) (email password : String)
    (wd ud : Doc) (a : Account) (e : StoreError)
    (hl : getUserByEmail env st email = .ok a) (hg : env.getFault = some e) :
    tryBlock env st email password wd ud =
      ⟨.error ⟨"internal", "Failed to create worker: " ++ e.message⟩, st,
        [Effect.getUserByEmail email, Effect.workerGet a.uid]⟩ := by
  simp [tryBlock, hl, hg, innerCatch, JsError.codeIs, reportFailure, JsError.message]

/-- The lookup fails with a code other than not-found. -/
theorem tryBlock_lookup_rejected (env : Env) (st : State) (email password : String)
    (wd ud : Doc) (e : AuthError)
    (hl : getUserByEmail env st email = .error e) (hc : e.code ≠ "auth/user-not-found") :
    tryBlock env st email password wd ud =
      ⟨.error (reportFailure (.auth e)), st, [Effect.getUserByEmail email]⟩ := by
  simp [tryBlock, hl, innerCatch, JsError.codeIs, hc]

/-- The lookup reports not-found: the handler goes on to create the account. -/
theorem tryBlock_not_found (env : Env) (st : State) (email password : String)
    (wd ud : Doc) (e : AuthError)
    (hl : getUserByEmail env st email = .error e) (hc : e.code = "auth/user-not-found") :
    tryBlock env st email password wd ud =
      createAndWrite env st [Effect.getUserByEmail email] none false email password wd ud := by
  simp [tryBlock, hl, innerCatch, JsError.codeIs, hc]

/-- Account creation fails: the failure is reported and nothing is written. -/
theorem createAndWrite_create_rejected (env : Env) (st : State) (tr : List Effect)
    (ae : Bool) (email password : String) (wd ud : Doc) (e : AuthError)
    (h : createUser env st email password = .error e) :
    createAndWrite env st tr none ae email password wd ud =
      ⟨.error (reportFailure (.auth e)), st, tr ++ [Effect.createUser email]⟩ := by
  simp [createAndWrite, h]

/-- Account creation succeeds: the records are written for the new identifier. -/
theorem createAndWrite_created (env : Env) (st st1 : State) (tr : List Effect)
    (ae : Bool) (email password : String) (wd ud : Doc) (u : Account)
    (h : createUser env st email password = .ok (u, st1)) :
    createAndWrite env st tr none ae email password wd ud =
      writeRecords env st1 (tr ++ [Effect.createUser email]) u.uid ae wd ud := by
  simp [createAndWrite, h]

/-- When `createUser` succeeds: no rejection, the email was free, and the new account is
added with the assigned identifier. -/
theorem createUser_ok_iff (env : Env) (st st1 : State) (email password : String)
    (u : Account) :
    createUser env st email password = .ok (u, st1) ↔
      env.createFault = none ∧ st.accounts.any (fun a => a.email = email) = false ∧
        u = ⟨env.newUid, email, password, false, false⟩ ∧
        st1 = { st with accounts := st.accounts ++ [u] } := by
  unfold createUser
  constructor
  · intro h
    split at h
    · cases h
    · split at h
      · cases h
      · cases h
        simp_all
  · rintro ⟨h1, h2, h3, h4⟩
    subst h3 h4
    simp [h1, h2]

/-- The three outcomes of the lookup. -/
theorem getUserByEmail_cases (env : Env) (st : State) (email : String) :
    (∃ e, env.lookupFault = some e ∧ getUserByEmail env st email = .error e) ∨
    (∃ a, env.lookupFault = none ∧ st.accounts.find? (fun a => a.email = email) = some a ∧
        getUserByEmail env st email = .ok a) ∨
    (env.lookupFault = none ∧ st.accounts.find? (fun a => a.email = email) = none ∧
        getUserByEmail env st email = .error userNotFound) := by
  unfold getUserByEmail
  cases h1 : env.lookupFault with
  | some e => left; exact ⟨e, rfl, rfl⟩
  | none =>
    right
    cases h2 : st.accounts.find? (fun a => a.email = email) with
    | some a => left; exact ⟨a, rfl, rfl, rfl⟩
    | none => right; exact ⟨rfl, rfl, rfl⟩

/-- After an account is added for a free email, the lookup of that email finds it. -/
theorem find_after_create (accounts : List Account) (email : String) (u : Account)
    (h : accounts.any (fun a => a.email = email) = false) (hu : u.email = email) :
    (accounts ++ [u]).find? (fun a => a.email = email) = some u := by
  induction accounts with
  | nil => simp [List.find?, hu]
  | cons hd tl ih =>
    simp only [List.any_cons, Bool.or_eq_false_iff] at h
    simp only [List.cons_append, List.find?_cons, h.1]
    exact ih h.2

/-- When steps 5 and 6 succeed, the accounts are unchanged and the worker document of the
identifier carries the identifier that is returned. -/
theorem writeRecords_ok_registered (env : Env) (st : State) (tr : List Effect)
    (uid : String) (ae : Bool) (wd ud : Doc) (r : Response)
    (h : (writeRecords env st tr uid ae wd ud).result = .ok r) :
    r.workerUid = uid ∧ (writeRecords env st tr uid ae wd ud).state.accounts = st.accounts ∧
      ∃ d, assocGet (writeRecords env st tr uid ae wd ud).state.workers uid = some d ∧
        assocGet d "worker_id" = r.workerId := by
  cases hc : env.commitFault with
  | some e =>
    rw [writeRecords_rejected _ _ _ _ _ _ _ _ hc] at h
    cases h
  | none =>
    rw [writeRecords_committed _ _ _ _ _ _ _ hc] at h ⊢
    simp only [CallResult.ok.injEq] at h
    subst h
    refine ⟨rfl, rfl, _, assocGet_assocSet_same _ _ _, ?_⟩
    exact workerData_worker_id _ _

/-- When creation and write succeed, the account of the email is registered and its
worker document carries the identifier that is returned. -/
theorem createAndWrite_ok_registered (env : Env) (st : State) (tr : List Effect)
    (ae : Bool) (email password : String) (wd ud : Doc) (r : Response)
    (h : (createAndWrite env st tr none ae email password wd ud).result = .ok r) :
    ∃ a d, (createAndWrite env st tr none ae email password wd ud).state.accounts.find?
          (fun x => x.email = email) = some a ∧
      a.uid = r.workerUid ∧
      assocGet (createAndWrite env st tr none ae email password wd ud).state.workers a.uid
        = some d ∧
      assocGet d "worker_id" = r.workerId := by
  cases hcu : createUser env st email password with
  | error e =>
    rw [createAndWrite_create_rejected _ _ _ _ _ _ _ _ _ hcu] at h
    cases h
  | ok p =>
    obtain ⟨u, st1⟩ := p
    rw [createAndWrite_created _ _ _ _ _ _ _ _ _ _ hcu] at h ⊢
    obtain ⟨h1, h2, d, h3, h4⟩ := writeRecords_ok_registered _ _ _ _ _ _ _ _ h
    obtain ⟨_, hany, hu, hst⟩ := (createUser_ok_iff _ _ _ _ _ _).mp hcu
    refine ⟨u, d, ?_, h1.symm, h3, h4⟩
    rw [h2, hst]
    exact find_after_create _ _ _ hany (by rw [hu])

/-- After a successful run of the `try` block the account of the email is registered and
its worker document carries the identifier that was returned. -/
theorem tryBlock_ok_registered (env : Env) (st : State) (email password : String)
    (wd ud : Doc) (r : Response)
    (h : (tryBlock env st email password wd ud).result = .ok r) :
    ∃ a d, (tryBlock env st email password wd ud).state.accounts.find?
          (fun x => x.email = email) = some a ∧
      a.uid = r.workerUid ∧
      assocGet (tryBlock env st email password wd ud).state.workers a.uid = some d ∧
      assocGet d "worker_id" = r.workerId := by
  have created : ∀ e, getUserByEmail env st email = .error e →
      ∃ a d, (tryBlock env st email password wd ud).state.accounts.find?
          (fun x => x.email = email) = some a ∧
        a.uid = r.workerUid ∧
        assocGet (tryBlock env st email password wd ud).state.workers a.uid = some d ∧
        assocGet d "worker_id" = r.workerId := by
    intro e hl
    by_cases hc : e.code = "auth/user-not-found"
    · rw [tryBlock_not_found _ _ _ _ _ _ _ hl hc] at h ⊢
      exact createAndWrite_ok_registered _ _ _ _ _ _ _ _ _ h
    · rw [tryBlock_lookup_rejected _ _ _ _ _ _ _ hl hc] at h
      cases h
  rcases getUserByEmail_cases env st email with
    ⟨e, _, hl⟩ | ⟨a, hlf, hfind, hl⟩ | ⟨_, _, hl⟩
  · exact created e hl
  · cases hg : env.getFault with
    | some e =>
      rw [tryBlock_read_rejected _ _ _ _ _ _ _ _ hl hg] at h
      cases h
    | none =>
      cases hw : assocGet st.workers a.uid with
      | some d =>
        rw [tryBlock_existing _ _ _ _ _ _ _ _ hl hg hw] at h ⊢
        simp only [CallResult.ok.injEq] at h
        subst h
        exact ⟨a, d, hfind, rfl, hw, rfl⟩
      | none =>
        rw [tryBlock_repair _ _ _ _ _ _ _ hl hg hw] at h ⊢
        obtain ⟨h1, h2, d, h3, h4⟩ := writeRecords_ok_registered _ _ _ _ _ _ _ _ h
        exact ⟨a, d, by rw [h2]; exact hfind, h1.symm, h3, h4⟩
  · exact created _ hl

/-- C3: when a first authenticated, valid call succeeds, a second authenticated, valid
call for the same email (any password, any payloads) whose lookups are answered returns
success with `alreadyExists = true` and the same `workerUid` and `workerId`, issues the
two lookups only, and leaves the three stores as the first call left them. -/
theorem second_call_idempotent (env1 env2 : Env) (st : State)
    (email password1 password2 : String) (wd1 ud1 wd2 ud2 : Doc) (r1 : Response)
    (he : email ≠ "") (hp1 : password1 ≠ "") (hp2 : password2 ≠ "")
    (h1 : (createWorkerAccount env1 st true
        (some ⟨some email, some password1, some wd1, some ud1⟩)).result = .ok r1)
    (hl : env2.lookupFault = none) (hg : env2.getFault = none) :
    createWorkerAccount env2
        (createWorkerAccount env1 st true
          (some ⟨some email, some password1, some wd1, some ud1⟩)).state
        true (some ⟨some email, some password2, some wd2, some ud2⟩) =
      ⟨.ok ⟨true, r1.workerUid, r1.workerId, "Worker already exists", true⟩,
        (createWorkerAccount env1 st true
          (some ⟨some email, some password1, some wd1, some ud1⟩)).state,
        [Effect.getUserByEmail email, Effect.workerGet r1.workerUid]⟩ := by
  rw [createWorkerAccount_valid _ _ _ _ _ _ he hp1] at h1 ⊢
  rw [createWorkerAccount_valid _ _ _ _ _ _ he hp2]
  obtain ⟨a, d, hfind, huid, hw, hid⟩ := tryBlock_ok_registered _ _ _ _ _ _ _ h1
  have hlook : getUserByEmail env2 (tryBlock env1 st email password1 wd1 ud1).state email
      = .ok a := by
    simp [getUserByEmail, hl, hfind]
  rw [tryBlock_existing _ _ _ _ _ _ a d hlook hg hw, huid, hid]

/-- The end-to-end example called twice, with another password and other payloads the
second time. -/
theorem second_call_idempotent_witness :
    createWorkerAccount (quietEnv "U2")
        (createWorkerAccount (quietEnv "U1") emptyState true
          (some ⟨some "w1@x.com", some "pass-1234", some [("name", .str "A")],
            some [("name", .str "A")]⟩)).state
        true (some ⟨some "w1@x.com", some "pass-5678", some [("name", .str "B")], some []⟩) =
      ⟨.ok ⟨true, "U1", some (.str "HM_0001"), "Worker already exists", true⟩,
        (createWorkerAccount (quietEnv "U1") emptyState true
          (some ⟨some "w1@x.com", some "pass-1234", some [("name", .str "A")],
            some [("name", .str "A")]⟩)).state,
        [Effect.getUserByEmail "w1@x.com", Effect.workerGet "U1"]⟩ :=
  second_call_idempotent (quietEnv "U1") (quietEnv "U2") emptyState "w1@x.com"
    "pass-1234" "pass-5678"
    [("name", .str "A")] [("name", .str "A")] [("name", .str "B")] []
    ⟨true, "U1", some (.str "HM_0001"), "Worker account created successfully", false⟩
    (by decide) (by decide) (by decide) (by decide) rfl rfl

/-- Either the `try` block reaches steps 5 and 6, on a state with the same collections
and for an identifier that has no worker document or is newly assigned, or it issues
neither the allocation query nor the batch. -/
theorem tryBlock_write_or_not (env : Env) (st : State) (email password : String)
    (wd ud : Doc) :
    (∃ st1 tr uid ae, tryBlock env st email password wd ud
          = writeRecords env st1 tr uid ae wd ud ∧
        st1.workers = st.workers ∧ st1.users = st.users ∧
        (assocGet st.workers uid = none ∨ uid = env.newUid) ∧
        ∀ x ∈ tr, x.isLookupPhase = true) ∨
      ∀ x ∈ (tryBlock env st email password wd ud).trace, x.isLookupPhase = true := by
  have created : ∀ e, getUserByEmail env st email = .error e →
      (∃ st1 tr uid ae, tryBlock env st email password wd ud
          = writeRecords env st1 tr uid ae wd ud ∧
        st1.workers = st.workers ∧ st1.users = st.users ∧
        (assocGet st.workers uid = none ∨ uid = env.newUid) ∧
        ∀ x ∈ tr, x.isLookupPhase = true) ∨
      ∀ x ∈ (tryBlock env st email password wd ud).trace, x.isLookupPhase = true := by
    intro e hl
    by_cases hc : e.code = "auth/user-not-found"
    · rw [tryBlock_not_found _ _ _ _ _ _ _ hl hc]
      cases hcu : createUser env st email password with
      | error e1 =>
        right
        rw [createAndWrite_create_rejected _ _ _ _ _ _ _ _ _ hcu]
        simp [Effect.isLookupPhase]
      | ok p =>
        obtain ⟨u, st1⟩ := p
        left
        rw [createAndWrite_created _ _ _ _ _ _ _ _ _ _ hcu]
        obtain ⟨_, _, hu, hst⟩ := (createUser_ok_iff _ _ _ _ _ _).mp hcu
        refine ⟨st1, _, u.uid, false, rfl, by rw [hst], by rw [hst], Or.inr (by rw [hu]), ?_⟩
        simp [Effect.isLookupPhase]
    · right
      rw [tryBlock_lookup_rejected _ _ _ _ _ _ _ hl hc]
      simp [Effect.isLookupPhase]
  rcases getUserByEmail_cases env st email with
    ⟨e, _, hl⟩ | ⟨a, hlf, hfind, hl⟩ | ⟨_, _, hl⟩
  · exact created e hl
  · cases hg : env.getFault with
    | some e =>
      right
      rw [tryBlock_read_rejected _ _ _ _ _ _ _ _ hl hg]
      simp [Effect.isLookupPhase]
    | none =>
      cases hw : assocGet st.workers a.uid with
      | some d =>
        right
        rw [tryBlock_existing _ _ _ _ _ _ _ _ hl hg hw]
        simp [Effect.isLookupPhase]
      | none =>
        left
        rw [tryBlock_repair _ _ _ _ _ _ _ hl hg hw]
        exact ⟨st, _, a.uid, true, rfl, rfl, rfl, Or.inl hw, by simp [Effect.isLookupPhase]⟩
  · exact created _ hl

/-- Steps 5 and 6 issue the allocation query and the batch, in that order. -/
theorem writeRecords_trace (env : Env) (st : State) (tr : List Effect) (uid : String)
    (ae : Bool) (wd ud : Doc) :
    (writeRecords env st tr uid ae wd ud).trace =
      tr ++ [Effect.workerQuery, Effect.batchCommit uid] := by
  unfold writeRecords
  split <;> rfl

/-- C5, amended: for an authenticated, valid call that reaches the batch (the trace holds
the commit for account `uid`) and whose batch the record store rejects with `e`: the
call fails with `internal`, the message ends with the message of `e`, and the two
collections are as before. So each of the two documents of `uid` exists afterwards only
if it existed before the call; and on a state where the documents are paired and the
identifier of a new account has no worker document, neither exists afterwards. -/
theorem rejected_batch_writes_nothing (env : Env) (st : State) (email password : String)
    (wd ud : Doc) (e : StoreError) (uid : String)
    (he : email ≠ "") (hp : password ≠ "")
    (hc : env.commitFault = some e)
    (hreach : Effect.batchCommit uid ∈ (createWorkerAccount env st true
        (some ⟨some email, some password, some wd, some ud⟩)).trace) :
    (createWorkerAccount env st true
        (some ⟨some email, some password, some wd, some ud⟩)).result
        = .error ⟨"internal", "Failed to create worker: " ++ e.message⟩ ∧
      (createWorkerAccount env st true
        (some ⟨some email, some password, some wd, some ud⟩)).state.workers = st.workers ∧
      (createWorkerAccount env st true
        (some ⟨some email, some password, some wd, some ud⟩)).state.users = st.users ∧
      assocGet (createWorkerAccount env st true
          (some ⟨some email, some password, some wd, some ud⟩)).state.workers uid
        = assocGet st.workers uid ∧
      assocGet (createWorkerAccount env st true
          (some ⟨some email, some password, some wd, some ud⟩)).state.users uid
        = assocGet st.users uid ∧
      (Paired st → assocGet st.workers env.newUid = none →
        assocGet (createWorkerAccount env st true
          (some ⟨some email, some password, some wd, some ud⟩)).state.workers uid = none ∧
        assocGet (createWorkerAccount env st true
          (some ⟨some email, some password, some wd, some ud⟩)).state.users uid = none) := by
  rw [createWorkerAccount_valid _ _ _ _ _ _ he hp] at hreach ⊢
  rcases tryBlock_write_or_not env st email password wd ud with
    ⟨st1, tr, uid1, ae, heq, hw, hu, hnew, htr⟩ | hno
  · rw [heq] at hreach ⊢
    rw [writeRecords_trace] at hreach
    have huid : uid = uid1 := by
      simp only [List.mem_append, List.mem_cons, List.mem_singleton, Effect.batchCommit.injEq,
        List.not_mem_nil, or_false] at hreach
      rcases hreach with h | h | h
      · have := htr _ h
        simp [Effect.isLookupPhase] at this
      · cases h
      · exact h
    subst huid
    rw [writeRecords_rejected _ _ _ _ _ _ _ _ hc]
    refine ⟨rfl, hw, hu, by simp only [hw], by simp only [hu], ?_⟩
    intro hpair hfresh
    simp only [hw, hu]
    have hnone : assocGet st.workers uid = none := by
      rcases hnew with h | h
      · exact h
      · rw [h]; exact hfresh
    refine ⟨hnone, ?_⟩
    have := (hpair uid).1
    rw [hnone] at this
    cases hx : assocGet st.users uid with
    | none => rfl
    | some x => rw [hx] at this; simp at this
  · have := hno _ hreach
    simp [Effect.isLookupPhase] at this

/-- A repair whose batch is rejected: the failure is `internal` and no document exists
for the account. -/
theorem rejected_batch_writes_nothing_witness :
    (createWorkerAccount commitDownEnv orphanState true (some sampleData)).result
        = .error ⟨"internal", "Failed to create worker: permission denied"⟩ ∧
      (createWorkerAccount commitDownEnv orphanState true (some sampleData)).state.workers
        = [] ∧
      (createWorkerAccount commitDownEnv orphanState true (some sampleData)).state.users
        = [] ∧
      assocGet (createWorkerAccount commitDownEnv orphanState true
        (some sampleData)).state.workers "U9" = none ∧
      assocGet (createWorkerAccount commitDownEnv orphanState true
        (some sampleData)).state.users "U9" = none :=
  have h := rejected_batch_writes_nothing commitDownEnv orphanState "w1@x.com" "pass-1234"
    [("name", .str "A")] [("name", .str "A")] ⟨7, "permission denied"⟩ "U9"
    (by decide) (by decide) rfl (by decide)
  ⟨h.1, h.2.1, h.2.2.1,
    h.2.2.2.2.2 (fun uid => ⟨by simp [orphanState, assocGet], by
      intro w u hw
      simp [orphanState, assocGet] at hw⟩) rfl⟩

/-- C5, as stated, fails: the handler reads the worker document only. For a registered
customer (account and user document, no worker document) the batch is reached, and
when it is rejected the user document of the account is still there. -/
theorem user_document_remains :
    commitDownEnv.commitFault = some ⟨7, "permission denied"⟩ ∧
      Effect.batchCommit "U9" ∈
        (createWorkerAccount commitDownEnv customerState true (some sampleData)).trace ∧
      (createWorkerAccount commitDownEnv customerState true (some sampleData)).result
        = .error ⟨"internal", "Failed to create worker: permission denied"⟩ ∧
      assocGet (createWorkerAccount commitDownEnv customerState true
        (some sampleData)).state.workers "U9" = none ∧
      assocGet (createWorkerAccount commitDownEnv customerState true
        (some sampleData)).state.users "U9"
        = some [("name", .str "C"), ("role", .str "customer")] := by
  decide

/-- C6: repair path. When the email has an account `a` without worker document and the
lookups and the batch are answered, an authenticated, valid call creates no account
(the accounts are unchanged and `createUser` is not called), sets under `a.uid` a worker
document and a user document that carry the identifier `generateWorkerId` returns on
the state of the call, and returns success with that identifier, `workerUid = a.uid`
and `alreadyExists = true`. -/
theorem repair_path (env : Env) (st : State) (email password : String) (wd ud : Doc)
    (a : Account) (he : email ≠ "") (hp : password ≠ "")
    (hl : env.lookupFault = none) (hg : env.getFault = none)
    (hc : env.commitFault = none)
    (ha : st.accounts.find? (fun x => x.email = email) = some a)
    (hw : assocGet st.workers a.uid = none) :
    (createWorkerAccount env st true
        (some ⟨some email, some password, some wd, some ud⟩)).result
        = .ok ⟨true, a.uid,
            some (.str (generateWorkerId st.workers env.queryFault env.now)),
            "Worker account already exists", true⟩ ∧
      (createWorkerAccount env st true
        (some ⟨some email, some password, some wd, some ud⟩)).state.accounts = st.accounts ∧
      (createWorkerAccount env st true
        (some ⟨some email, some password, some wd, some ud⟩)).trace
        = [Effect.getUserByEmail email, Effect.workerGet a.uid, Effect.workerQuery,
            Effect.batchCommit a.uid] ∧
      assocGet (createWorkerAccount env st true
          (some ⟨some email, some password, some wd, some ud⟩)).state.workers a.uid
        = some (completeWorkerData wd (generateWorkerId st.workers env.queryFault env.now)) ∧
      assocGet (createWorkerAccount env st true
          (some ⟨some email, some password, some wd, some ud⟩)).state.users a.uid
        = some (completeUserData ud a.uid
            (generateWorkerId st.workers env.queryFault env.now)) ∧
      assocGet (completeWorkerData wd (generateWorkerId st.workers env.queryFault env.now))
          "worker_id"
        = some (.str (generateWorkerId st.workers env.queryFault env.now)) ∧
      assocGet (completeUserData ud a.uid
          (generateWorkerId st.workers env.queryFault env.now)) "worker_id"
        = some (.str (generateWorkerId st.workers env.queryFault env.now)) := by
  have hlook : getUserByEmail env st email = .ok a := by simp [getUserByEmail, hl, ha]
  rw [createWorkerAccount_valid _ _ _ _ _ _ he hp, tryBlock_repair _ _ _ _ _ _ _ hlook hg hw,
    writeRecords_committed _ _ _ _ _ _ _ hc]
  refine ⟨by simp, rfl, by simp, assocGet_assocSet_same _ _ _, assocGet_assocSet_same _ _ _,
    workerData_worker_id _ _, userData_worker_id _ _ _⟩

/-- A repair on an account without records. -/
theorem repair_path_witness :
    (createWorkerAccount (quietEnv "U2") orphanState true (some sampleData)).result
        = .ok ⟨true, "U9", some (.str "HM_0001"), "Worker account already exists", true⟩ ∧
      (createWorkerAccount (quietEnv "U2") orphanState true (some sampleData)).state.accounts
        = orphanState.accounts :=
  have h := repair_path (quietEnv "U2") orphanState "w1@x.com" "pass-1234"
    [("name", .str "A")] [("name", .str "A")] ⟨"U9", "w1@x.com", "pass-0000", false, false⟩
    (by decide) (by decide) rfl rfl rfl (by decide) (by decide)
  ⟨h.1, h.2.1⟩

/-- C10: when the allocation query is rejected, `generateWorkerId` returns `HM_`
followed by the decimal digits of the clock, for every collection and every clock
value. Hence an authenticated, valid call that reaches the query, has it rejected and
has its batch accepted returns success with that identifier, and both documents of the
account carry it. -/
theorem allocator_fallback (workers : Collection) (q : StoreError) (t : Nat)
    (env : Env) (st : State) (email password : String) (wd ud : Doc) :
    generateWorkerId workers (some q) t = "HM_" ++ toString t ∧
      (email ≠ "" → password ≠ "" → env.queryFault = some q → env.commitFault = none →
        Effect.workerQuery ∈ (createWorkerAccount env st true
          (some ⟨some email, some password, some wd, some ud⟩)).trace →
        ∃ r w u,
          (createWorkerAccount env st true
            (some ⟨some email, some password, some wd, some ud⟩)).result = .ok r ∧
          r.success = true ∧
          r.workerId = some (.str ("HM_" ++ toString env.now)) ∧
          assocGet (createWorkerAccount env st true
            (some ⟨some email, some password, some wd, some ud⟩)).state.workers r.workerUid
              = some w ∧
          assocGet w "worker_id" = some (.str ("HM_" ++ toString env.now)) ∧
          assocGet (createWorkerAccount env st true
            (some ⟨some email, some password, some wd, some ud⟩)).state.users r.workerUid
              = some u ∧
          assocGet u "worker_id" = some (.str ("HM_" ++ toString env.now))) := by
  refine ⟨rfl, ?_⟩
  intro he hp hq hc hreach
  rw [createWorkerAccount_valid _ _ _ _ _ _ he hp] at hreach ⊢
  rcases tryBlock_write_or_not env st email password wd ud with
    ⟨st1, tr, uid1, ae, heq, hw, _, _, _⟩ | hno
  · rw [heq, writeRecords_committed _ _ _ _ _ _ _ hc]
    have hid : generateWorkerId st1.workers env.queryFault env.now
        = "HM_" ++ toString env.now := by rw [hq]; rfl
    rw [hid]
    exact ⟨_, _, _, rfl, rfl, rfl, assocGet_assocSet_same _ _ _, workerData_worker_id _ _,
      assocGet_assocSet_same _ _ _, userData_worker_id _ _ _⟩
  · have := hno _ hreach
    simp [Effect.isLookupPhase] at this

/-- The fallback identifier for the clock value 1700000000000, and a call that stores
it. -/
theorem allocator_fallback_witness :
    generateWorkerId sevenWorkers (some ⟨14, "unavailable"⟩) 1700000000000
        = "HM_1700000000000" ∧
      ∃ r w u,
        (createWorkerAccount queryDownEnv emptyState true (some sampleData)).result = .ok r ∧
        r.success = true ∧
        r.workerId = some (.str "HM_1700000000000") ∧
        assocGet (createWorkerAccount queryDownEnv emptyState true (some sampleData)).state.workers
          r.workerUid = some w ∧
        assocGet w "worker_id" = some (.str "HM_1700000000000") ∧
        assocGet (createWorkerAccount queryDownEnv emptyState true (some sampleData)).state.users
          r.workerUid = some u ∧
        assocGet u "worker_id" = some (.str "HM_1700000000000") :=
  have h := allocator_fallback sevenWorkers ⟨14, "unavailable"⟩ 1700000000000 queryDownEnv
    emptyState "w1@x.com" "pass-1234" [("name", .str "A")] [("name", .str "A")]
  ⟨h.1, h.2 (by decide) (by decide) rfl rfl (by decide)⟩

/- The allocation query: the greatest stored identifier -/

/-- No value is below itself. -/
theorem valLt_irrefl (v : Val) : valLt v v = false := by
  cases v <;> simp [valLt, valRank]

/-- If `b` is not above `v` and `x` is not above `b`, then `x` is not above `v`. -/
theorem valLt_cotrans (v b x : Val) (h1 : valLt v b = false) (h2 : valLt b x = false) :
    valLt v x = false := by
  cases v <;> cases b <;> cases x <;> simp_all [valLt, valRank] 
  all_goals exact le_trans h2 h1

/-- The ordering of values is asymmetric. -/
theorem valLt_asymm (a b : Val) (h : valLt a b = true) : valLt b a = false := by
  cases a <;> cases b <;> simp_all [valLt, valRank]
  all_goals exact le_of_lt h

/-- The scan returns a value that no scanned value and no initial value exceeds, and the
value comes from the initial value or from a scanned document. -/
theorem foldl_keepGreater (l : Collection) (acc : Option Val) :
    (∀ b, acc = some b → ∃ v, l.foldl keepGreater acc = some v ∧ valLt v b = false) ∧
    (∀ entry ∈ l, ∀ x, assocGet entry.2 "worker_id" = some x →
      ∃ v, l.foldl keepGreater acc = some v ∧ valLt v x = false) ∧
    (l.foldl keepGreater acc = acc ∨
      ∃ entry ∈ l, assocGet entry.2 "worker_id" = l.foldl keepGreater acc) := by
  induction l generalizing acc with
  | nil =>
    refine ⟨?_, ?_, Or.inl rfl⟩
    · intro b hb
      exact ⟨b, hb, valLt_irrefl b⟩
    · intro entry he
      cases he
  | cons hd tl ih =>
    simp only [List.foldl_cons]
    obtain ⟨ihA, ihB, ihC⟩ := ih (keepGreater acc hd)
    cases hf : assocGet hd.2 "worker_id" with
    | none =>
      have hk : keepGreater acc hd = acc := by simp [keepGreater, hf]
      rw [hk] at ihA ihB ihC ⊢
      refine ⟨ihA, ?_, ?_⟩
      · intro entry he x hx
        rcases List.mem_cons.mp he with rfl | he
        · rw [hf] at hx; cases hx
        · exact ihB entry he x hx
      · rcases ihC with h | ⟨entry, he, h⟩
        · exact Or.inl h
        · exact Or.inr ⟨entry, List.mem_cons_of_mem _ he, h⟩
    | some x0 =>
      cases hacc : acc with
      | none =>
        have hk : keepGreater none hd = some x0 := by simp [keepGreater, hf]
        rw [hacc, hk] at ihA ihB ihC
        rw [hk]
        refine ⟨(by intro b hb; cases hb), ?_, ?_⟩
        · intro entry he x hx
          rcases List.mem_cons.mp he with rfl | he
          · rw [hf] at hx; cases hx
            exact ihA x0 rfl
          · exact ihB entry he x hx
        · right
          rcases ihC with h | ⟨entry, he, h⟩
          · exact ⟨hd, List.mem_cons_self _ _, by rw [hf, h]⟩
          · exact ⟨entry, List.mem_cons_of_mem _ he, h⟩
      | some b0 =>
        by_cases hlt : valLt b0 x0 = true
        · have hk : keepGreater (some b0) hd = some x0 := by simp [keepGreater, hf, hlt]
          rw [hacc, hk] at ihA ihB ihC
          rw [hk]
          obtain ⟨v, hv, hvx⟩ := ihA x0 rfl
          refine ⟨?_, ?_, ?_⟩
          · intro b hb
            cases hb
            exact ⟨v, hv, valLt_cotrans _ _ _ hvx (valLt_asymm _ _ hlt)⟩
          · intro entry he x hx
            rcases List.mem_cons.mp he with rfl | he
            · rw [hf] at hx; cases hx
              exact ⟨v, hv, hvx⟩
            · exact ihB entry he x hx
          · right
            rcases ihC with h | ⟨entry, he, h⟩
            · exact ⟨hd, List.mem_cons_self _ _, by rw [hf, h]⟩
            · exact ⟨entry, List.mem_cons_of_mem _ he, h⟩
        · have hlt : valLt b0 x0 = false := by simpa using hlt
          have hk : keepGreater (some b0) hd = some b0 := by simp [keepGreater, hf, hlt]
          rw [hacc, hk] at ihA ihB ihC
          rw [hk]
          obtain ⟨v, hv, hvb⟩ := ihA b0 rfl
          refine ⟨?_, ?_, ?_⟩
          · intro b hb
            cases hb
            exact ⟨v, hv, hvb⟩
          · intro entry he x hx
            rcases List.mem_cons.mp he with rfl | he
            · rw [hf] at hx; cases hx
              exact ⟨v, hv, valLt_cotrans _ _ _ hvb hlt⟩
            · exact ihB entry he x hx
          · rcases ihC with h | ⟨entry, he, h⟩
            · exact Or.inl h
            · exact Or.inr ⟨entry, List.mem_cons_of_mem _ he, h⟩

/-- The snapshot is empty when no document has the field. -/
theorem topWorkerId_none (workers : Collection)
    (h : ∀ entry ∈ workers, assocGet entry.2 "worker_id" = none) :
    topWorkerId workers = none := by
  rcases (foldl_keepGreater workers none).2.2 with h1 | ⟨entry, he, h1⟩
  · exact h1
  · unfold topWorkerId
    rw [← h1]
    exact h entry he

/-- The query returns the greatest stored string identifier, when there is one. -/
theorem topWorkerId_greatest (workers : Collection) (m : String)
    (hm : ∃ entry ∈ workers, assocGet entry.2 "worker_id" = some (.str m))
    (hmax : ∀ entry ∈ workers, ∀ s, assocGet entry.2 "worker_id" = some (.str s) →
      s.data ≤ m.data) :
    topWorkerId workers = some (.str m) := by
  obtain ⟨em, hem, hfm⟩ := hm
  obtain ⟨v, hv, hvm⟩ := (foldl_keepGreater workers none).2.1 em hem _ hfm
  unfold topWorkerId
  rw [hv]
  rcases (foldl_keepGreater workers none).2.2 with h1 | ⟨entry, he, h1⟩
  · rw [hv] at h1; cases h1
  · rw [hv] at h1
    cases v with
    | str s =>
      have h2 : ¬ s.data < m.data := by simpa [valLt] using hvm
      have h3 := hmax entry he s h1
      have h4 : s.data = m.data := le_antisymm h3 (not_lt.mp h2)
      have : s = m := by
        cases s; cases m; simp_all
      rw [this]
    | null => simp [valLt, valRank] at hvm
    | bool b => simp [valLt, valRank] at hvm
    | num n => simp [valLt, valRank] at hvm
    | serverTimestamp => simp [valLt, valRank] at hvm

/-- Replacing the first `HM_` of a text that starts with it strips the prefix. -/
theorem replaceFirst_at_start (r : List Char) :
    replaceFirst "HM_".data [] ("HM_".data ++ r) = r := by
  show replaceFirst ['H', 'M', '_'] [] ('H' :: 'M' :: '_' :: r) = r
  simp [replaceFirst, List.isPrefixOf]

/-- A decimal digit is not white space. -/
theorem digit_not_space (c : Char) (h : (digitValue 10 c).isSome = true) :
    isStrWhiteSpace c = false := by
  unfold digitValue at h
  unfold isStrWhiteSpace
  simp only at h ⊢
  split at h
  · rename_i hc
    simp only [Bool.or_eq_false_iff, decide_eq_false_iff_not, Bool.and_eq_false_iff]
    omega
  · simp at h

/-- Code points of the decimal digits. -/
theorem digit_range (c : Char) (h : (digitValue 10 c).isSome = true) :
    48 ≤ c.toNat ∧ c.toNat ≤ 57 := by
  unfold digitValue at h
  simp only at h
  split at h
  · assumption
  · simp at h

/-- A decimal digit is neither a sign nor the letter of a hexadecimal prefix. -/
theorem digit_not_sign (c : Char) (h : (digitValue 10 c).isSome = true) :
    c ≠ '-' ∧ c ≠ '+' ∧ c ≠ 'x' ∧ c ≠ 'X' := by
  have hr := digit_range c h
  refine ⟨?_, ?_, ?_, ?_⟩ <;> (rintro rfl; revert hr; decide)

/-- The longest run of leading digits of `ds ++ rest` is `ds` when `ds` consists of
digits and `rest` does not start with one. -/
theorem takeWhile_digits (ds rest : List Char)
    (hds : ∀ c ∈ ds, (digitValue 10 c).isSome = true)
    (hrest : ∀ c, rest.head? = some c → (digitValue 10 c).isSome = false) :
    (ds ++ rest).takeWhile (fun c => (digitValue 10 c).isSome) = ds := by
  induction ds with
  | nil =>
    cases rest with
    | nil => rfl
    | cons c t => simp [List.takeWhile, hrest c rfl]
  | cons d t ih =>
    have h := ih (fun c hc => hds c (List.mem_cons_of_mem _ hc))
    simp only [List.cons_append, List.takeWhile_cons, hds d (List.mem_cons_self _ _), h,
      if_true]

/-- On a text that begins with a run of decimal digits, not followed by a further digit
and not introducing a hexadecimal literal, `parseInt` is the value of the run. -/
theorem parseInt_leading_digits (ds rest : List Char) (hne : ds ≠ [])
    (hds : ∀ c ∈ ds, (digitValue 10 c).isSome = true)
    (hrest : ∀ c, rest.head? = some c → (digitValue 10 c).isSome = false)
    (hhex : ¬ (ds = ['0'] ∧ (rest.head? = some 'x' ∨ rest.head? = some 'X'))) :
    parseInt (ds ++ rest) = some (digitsValue 10 ds : Int) := by
  obtain ⟨d, t, rfl⟩ := List.exists_cons_of_ne_nil hne
  have hd := hds d (List.mem_cons_self _ _)
  have hsp := digit_not_space d hd
  obtain ⟨hm, hpl, _, _⟩ := digit_not_sign d hd
  have h1 : (d :: t ++ rest).dropWhile isStrWhiteSpace = d :: (t ++ rest) := by
    simp [List.dropWhile, hsp]
  have h2 : stripSign (d :: (t ++ rest)) = (false, d :: (t ++ rest)) := by
    simp [stripSign, hm, hpl]
  have h3 : stripRadix (d :: (t ++ rest)) = (10, d :: (t ++ rest)) := by
    cases t with
    | nil =>
      cases rest with
      | nil => rfl
      | cons c r =>
        simp only [List.nil_append, stripRadix]
        rw [if_neg]
        rintro ⟨h0, hx⟩
        apply hhex
        subst h0
        refine ⟨rfl, ?_⟩
        simpa using hx
    | cons d1 t1 =>
      simp only [List.cons_append, stripRadix]
      rw [if_neg]
      rintro ⟨_, hx⟩
      obtain ⟨_, _, hx1, hx2⟩ := digit_not_sign d1 (hds d1 (by simp))
      rcases hx with h | h
      · exact hx1 h
      · exact hx2 h
  unfold parseInt
  simp only [h1, h2, h3]
  have h4 := takeWhile_digits (d :: t) rest hds hrest
  simp only [List.cons_append] at h4
  rw [h4]
  simp

/-- On the empty text, and on a text whose first character is neither white space, nor
a sign, nor a decimal digit, `parseInt` is `NaN`. -/
theorem parseInt_no_digits (r : List Char)
    (h : r = [] ∨ ∃ c t, r = c :: t ∧ isStrWhiteSpace c = false ∧ c ≠ '-' ∧
      c ≠ '+' ∧ (digitValue 10 c).isSome = false) :
    parseInt r = none := by
  rcases h with rfl | ⟨c, t, rfl, hsp, hm, hpl, hd⟩
  · rfl
  · have h1 : (c :: t).dropWhile isStrWhiteSpace = c :: t := by
      simp [List.dropWhile, hsp]
    have h2 : stripSign (c :: t) = (false, c :: t) := by
      simp [stripSign, hm, hpl]
    have h0 : c ≠ '0' := by
      rintro rfl
      revert hd
      decide
    have h3 : stripRadix (c :: t) = (10, c :: t) := by
      cases t with
      | nil => rfl
      | cons c1 t1 => simp [stripRadix, h0]
    unfold parseInt
    simp only [h1, h2, h3]
    simp [List.takeWhile, hd]

/-- The decimal form of a natural number. -/
theorem numberToString_natCast (n : Nat) : numberToString (n : Int) = toString n := rfl

/-- The allocator on a collection whose greatest `worker_id` is the string `m`. -/
theorem generateWorkerId_of_top (workers : Collection) (now : Nat) (m : String)
    (h : topWorkerId workers = some (.str m)) :
    generateWorkerId workers none now =
      formatWorkerId ((parseInt (replaceFirst "HM_".data [] m.data)).getD 0 + 1) := by
  simp [generateWorkerId, h]

/-- C2, amended: on a collection whose allocation query is answered, `generateWorkerId`
returns `HM_0001` when no document has a `worker_id`. Otherwise let `m` be the
greatest stored identifier in code point order, of the form `HM_` followed by `r`.
When `r` begins with a run `ds` of decimal digits that is not followed by a further
digit, is not the `0` of a leading `0x` or `0X`, and has a value below
`maxSafeInteger`, the result is `HM_` followed by the decimal form of that value plus
one, padded on the left with zeros to four characters: the digits are read even if
other characters follow. When `r` is empty or begins with a character that is neither
white space, nor a sign, nor a decimal digit, the result is `HM_0001`. -/
theorem next_identifier (workers : Collection) (now : Nat) :
    ((∀ entry ∈ workers, assocGet entry.2 "worker_id" = none) →
        generateWorkerId workers none now = "HM_0001") ∧
      ∀ m r : String,
        (∃ entry ∈ workers, assocGet entry.2 "worker_id" = some (.str m)) →
        (∀ entry ∈ workers, ∀ s, assocGet entry.2 "worker_id" = some (.str s) →
          s.data ≤ m.data) →
        m = "HM_" ++ r →
        (∀ ds rest : List Char, r.data = ds ++ rest → ds ≠ [] →
          (∀ c ∈ ds, (digitValue 10 c).isSome = true) →
          (∀ c, rest.head? = some c → (digitValue 10 c).isSome = false) →
          ¬ (ds = ['0'] ∧ (rest.head? = some 'x' ∨ rest.head? = some 'X')) →
          digitsValue 10 ds < maxSafeInteger →
          generateWorkerId workers none now =
            "HM_" ++ padStart (toString (digitsValue 10 ds + 1)) 4 '0') ∧
        ((r.data = [] ∨ ∃ c t, r.data = c :: t ∧ isStrWhiteSpace c = false ∧ c ≠ '-' ∧
            c ≠ '+' ∧ (digitValue 10 c).isSome = false) →
          generateWorkerId workers none now = "HM_0001") := by
  constructor
  · intro h
    simp [generateWorkerId, topWorkerId_none workers h]
    decide
  · intro m r hm hmax hmr
    have htop := topWorkerId_greatest workers m hm hmax
    have hpart : replaceFirst "HM_".data [] m.data = r.data := by
      rw [hmr]
      exact replaceFirst_at_start r.data
    constructor
    · intro ds rest hr hne hds hrest hhex _
      rw [generateWorkerId_of_top workers now m htop, hpart, hr,
        parseInt_leading_digits ds rest hne hds hrest hhex]
      simp only [Option.getD_some, formatWorkerId]
      have : ((digitsValue 10 ds : Nat) : Int) + 1 = ((digitsValue 10 ds + 1 : Nat) : Int) := by
        push_cast
        rfl
      rw [this, numberToString_natCast]
    · intro h
      rw [generateWorkerId_of_top workers now m htop, hpart, parseInt_no_digits r.data h]
      decide

/-- With `HM_0001` to `HM_0007` stored, the next identifier is `HM_0008`. -/
theorem next_identifier_witness :
    generateWorkerId sevenWorkers none 0 = "HM_0008" :=
  ((next_identifier sevenWorkers 0).2 "HM_0007" "0007"
    ⟨("u7", [("worker_id", .str "HM_0007")]), by decide, by decide⟩
    (by
      intro entry he s hs
      simp only [sevenWorkers, List.mem_cons, List.mem_singleton, List.not_mem_nil,
        or_false] at he
      rcases he with rfl | rfl | rfl | rfl | rfl | rfl | rfl <;>
        (simp [assocGet] at hs; subst hs; decide))
    (by decide)).1 "0007".data [] (by decide) (by decide) (by decide) (by simp) (by decide)
      (by decide)

/-- C2, as stated, fails: with the only stored identifier `HM_12ab` the allocator returns
`HM_0013`, because `parseInt` reads the leading digits of the suffix `12ab`; the claim
counts that suffix as non-numeric and gives `HM_0001`. -/
theorem leading_digits_are_read :
    generateWorkerId [("u1", [("worker_id", .str "HM_12ab")])] none 0 = "HM_0013" ∧
      specNextWorkerId "HM_12ab" = "HM_0001" ∧
      generateWorkerId [("u1", [("worker_id", .str "HM_12ab")])] none 0
        ≠ specNextWorkerId "HM_12ab" := by
  decide

/- The failures reported to the caller -/

/-- The outer `catch` on a rejection of the identity store. -/
theorem reportFailure_auth (e : AuthError) :
    (e.code = "auth/email-already-exists" →
      reportFailure (.auth e) = ⟨"already-exists", "Worker with this email already exists"⟩) ∧
    (e.code ≠ "auth/email-already-exists" →
      reportFailure (.auth e) = ⟨"internal", "Failed to create worker: " ++ e.message⟩) := by
  constructor
  · intro h
    simp [reportFailure, JsError.codeIs, h]
  · intro h
    simp [reportFailure, JsError.codeIs, h, JsError.message]

/-- C9, amended: for an authenticated, valid call, (1) account creation failing with the
duplicate-email code gives `already-exists`, and with any other code gives `internal`
with the message of the cause; (2) an email lookup failing with a code other than the
not-found code and the duplicate-email code gives `internal` with the message of the
cause; (3) a rejected read of the worker document gives `internal` with the message of
the cause; (4) a rejected batch gives `internal` with the message of the cause; (5) a
lookup that reports not-found is not reported and leads to account creation; (6) a
rejected allocation query is not reported either: once the batch is accepted the call
succeeds with the fallback identifier. -/
theorem failure_mapping (env : Env) (st : State) (email password : String) (wd ud : Doc)
    (he : email ≠ "") (hp : password ≠ "") :
    (∀ e0 e, getUserByEmail env st email = .error e0 → e0.code = "auth/user-not-found" →
        createUser env st email password = .error e →
        (e.code = "auth/email-already-exists" →
          (createWorkerAccount env st true
            (some ⟨some email, some password, some wd, some ud⟩)).result =
            .error ⟨"already-exists", "Worker with this email already exists"⟩) ∧
        (e.code ≠ "auth/email-already-exists" →
          (createWorkerAccount env st true
            (some ⟨some email, some password, some wd, some ud⟩)).result =
            .error ⟨"internal", "Failed to create worker: " ++ e.message⟩)) ∧
      (∀ e, getUserByEmail env st email = .error e → e.code ≠ "auth/user-not-found" →
        e.code ≠ "auth/email-already-exists" →
        (createWorkerAccount env st true
          (some ⟨some email, some password, some wd, some ud⟩)).result =
          .error ⟨"internal", "Failed to create worker: " ++ e.message⟩) ∧
      (∀ a e, getUserByEmail env st email = .ok a → env.getFault = some e →
        (createWorkerAccount env st true
          (some ⟨some email, some password, some wd, some ud⟩)).result =
          .error ⟨"internal", "Failed to create worker: " ++ e.message⟩) ∧
      (∀ e uid, env.commitFault = some e →
        Effect.batchCommit uid ∈ (createWorkerAccount env st true
          (some ⟨some email, some password, some wd, some ud⟩)).trace →
        (createWorkerAccount env st true
          (some ⟨some email, some password, some wd, some ud⟩)).result =
          .error ⟨"internal", "Failed to create worker: " ++ e.message⟩) ∧
      (∀ e, getUserByEmail env st email = .error e → e.code = "auth/user-not-found" →
        Effect.createUser email ∈ (createWorkerAccount env st true
          (some ⟨some email, some password, some wd, some ud⟩)).trace) ∧
      (∀ q, env.queryFault = some q → env.commitFault = none →
        Effect.workerQuery ∈ (createWorkerAccount env st true
          (some ⟨some email, some password, some wd, some ud⟩)).trace →
        ∃ r, (createWorkerAccount env st true
          (some ⟨some email, some password, some wd, some ud⟩)).result = .ok r ∧
          r.workerId = some (.str (fallbackWorkerId env.now))) := by
  rw [createWorkerAccount_valid _ _ _ _ _ _ he hp]
  refine ⟨?_, ?_, ?_, ?_, ?_, ?_⟩
  · intro e0 e hl hc hcu
    rw [tryBlock_not_found _ _ _ _ _ _ _ hl hc,
      createAndWrite_create_rejected _ _ _ _ _ _ _ _ _ hcu]
    exact ⟨fun h => congrArg CallResult.error ((reportFailure_auth e).1 h),
      fun h => congrArg CallResult.error ((reportFailure_auth e).2 h)⟩
  · intro e hl hc hdup
    rw [tryBlock_lookup_rejected _ _ _ _ _ _ _ hl hc]
    exact congrArg CallResult.error ((reportFailure_auth e).2 hdup)
  · intro a e hl hg
    rw [tryBlock_read_rejected _ _ _ _ _ _ _ _ hl hg]
  · intro e uid hc hreach
    rcases tryBlock_write_or_not env st email password wd ud with
      ⟨st1, tr, uid1, ae, heq, _, _, _, _⟩ | hno
    · rw [heq, writeRecords_rejected _ _ _ _ _ _ _ _ hc]
    · have := hno _ hreach
      simp [Effect.isLookupPhase] at this
  · intro e hl hc
    rw [tryBlock_not_found _ _ _ _ _ _ _ hl hc]
    cases hcu : createUser env st email password with
    | error e1 =>
      rw [createAndWrite_create_rejected _ _ _ _ _ _ _ _ _ hcu]
      simp
    | ok p =>
      obtain ⟨u, st1⟩ := p
      rw [createAndWrite_created _ _ _ _ _ _ _ _ _ _ hcu, writeRecords_trace]
      simp
  · intro q hq hc hreach
    rcases tryBlock_write_or_not env st email password wd ud with
      ⟨st1, tr, uid1, ae, heq, _, _, _, _⟩ | hno
    · rw [heq, writeRecords_committed _ _ _ _ _ _ _ hc]
      refine ⟨_, rfl, ?_⟩
      simp [hq, generateWorkerId]
    · have := hno _ hreach
      simp [Effect.isLookupPhase] at this

/-- A creation that loses the race for the email is reported as `already-exists`. -/
theorem failure_mapping_witness :
    (createWorkerAccount racingEnv emptyState true (some sampleData)).result =
      .error ⟨"already-exists", "Worker with this email already exists"⟩ :=
  ((failure_mapping racingEnv emptyState
    "w1@x.com" "pass-1234" [("name", .str "A")] [("name", .str "A")] (by decide) (by decide)).1
      userNotFound emailAlreadyExists rfl (by decide) rfl).1 (by decide)

/-- C9, as stated, fails: the not-found lookup is not the only failure that is not
reported. Here the allocation query is issued and rejected, and the call succeeds. -/
theorem allocator_failure_not_reported :
    queryDownEnv.queryFault = some ⟨14, "unavailable"⟩ ∧
      Effect.workerQuery ∈
        (createWorkerAccount queryDownEnv emptyState true (some sampleData)).trace ∧
      (createWorkerAccount queryDownEnv emptyState true (some sampleData)).result =
        .ok ⟨true, "U1", some (.str "HM_1700000000000"),
          "Worker account created successfully", false⟩ := by
  decide

/- Validation and authentication -/

/-- C8: a call without an authenticated caller fails with `unauthenticated`, whatever
the payload (a missing payload included), issues no I/O and leaves the state as it
is. -/
theorem unauthenticated_rejected (env : Env) (st : State) (data : Option CallData) :
    (createWorkerAccount env st false data).result =
        .error ⟨"unauthenticated", "Customer must be authenticated"⟩ ∧
      (createWorkerAccount env st false data).state = st ∧
      (createWorkerAccount env st false data).trace = [] := by
  simp [createWorkerAccount]

/-- A call without payload: the destructuring throws before the guard. No I/O is issued
and the state is as it was, but the failure is a `TypeError`, not `invalid-argument`. -/
theorem no_payload_throws (env : Env) (st : State) :
    createWorkerAccount env st true none = ⟨.typeError, st, []⟩ := by
  simp [createWorkerAccount]

/-- C7, amended: an authenticated call whose payload is an object in which a field is
absent, or in which the email or the password is the empty string, fails with
`invalid-argument`, issues no I/O and leaves the state as it is. An empty map is a
present field. -/
theorem missing_field_rejected (env : Env) (st : State) (data : CallData)
    (h : missingField data) :
    createWorkerAccount env st true (some data) =
      ⟨.error ⟨"invalid-argument", "Missing required fields"⟩, st, []⟩ := by
  obtain ⟨email, password, workerData, userData⟩ := data
  unfold missingField at h
  simp only at h
  unfold createWorkerAccount
  rcases email with _ | email <;> rcases password with _ | password <;>
    rcases workerData with _ | workerData <;> rcases userData with _ | userData <;>
    simp_all

/-- An empty password and an absent `userData` are rejected. -/
theorem missing_field_rejected_witness :
    createWorkerAccount (quietEnv "U1") oneWorkerState true
        (some ⟨some "w2@x.com", some "", some [("name", .str "A")], none⟩) =
      ⟨.error ⟨"invalid-argument", "Missing required fields"⟩, oneWorkerState, []⟩ :=
  missing_field_rejected (quietEnv "U1") oneWorkerState
    ⟨some "w2@x.com", some "", some [("name", .str "A")], none⟩ (by decide)

/-- C7, as stated, fails: a request whose `workerData` is the empty map is not rejected.
The account and both documents are created. -/
theorem empty_map_accepted :
    (createWorkerAccount (quietEnv "U1") emptyState true
        (some ⟨some "w1@x.com", some "pass-1234", some [], some [("name", .str "A")]⟩)).result =
        .ok ⟨true, "U1", some (.str "HM_0001"), "Worker account created successfully",
          false⟩ ∧
      (createWorkerAccount (quietEnv "U1") emptyState true
        (some ⟨some "w1@x.com", some "pass-1234", some [], some [("name", .str "A")]⟩)).trace =
        [Effect.getUserByEmail "w1@x.com", Effect.createUser "w1@x.com",
          Effect.workerQuery, Effect.batchCommit "U1"] ∧
      (createWorkerAccount (quietEnv "U1") emptyState true
        (some ⟨some "w1@x.com", some "pass-1234", some [],
          some [("name", .str "A")]⟩)).state.workers =
        [("U1", [("worker_id", .str "HM_0001"), ("created_at", .serverTimestamp),
          ("last_active", .serverTimestamp)])] := by
  decide

/- Identifiers of at most four digits -/

/-- One step of the conversion to decimal digits. -/
theorem toDigitsCore_step (fuel n : Nat) (ds : List Char) :
    Nat.toDigitsCore 10 (fuel + 1) n ds =
      if n / 10 = 0 then Nat.digitChar (n % 10) :: ds
      else Nat.toDigitsCore 10 fuel (n / 10) (Nat.digitChar (n % 10) :: ds) := by
  simp [Nat.toDigitsCore]

/-- Below 10000, padding the decimal form to four characters gives the four digits. -/
theorem toDigits_four (n : Nat) (h : n < 10000) :
    List.replicate (4 - (Nat.toDigits 10 n).length) '0' ++ Nat.toDigits 10 n = fourDigits n := by
  unfold Nat.toDigits fourDigits
  by_cases h1 : n < 10
  · rw [toDigitsCore_step, if_pos (by omega)]
    have e1 : n / 1000 = 0 := by omega
    have e2 : n / 100 % 10 = 0 := by omega
    have e3 : n / 10 % 10 = 0 := by omega
    rw [e1, e2, e3]
    rfl
  · by_cases h2 : n < 100
    · obtain ⟨k, rfl⟩ : ∃ k, n = k + 1 := ⟨n - 1, by omega⟩
      rw [toDigitsCore_step, if_neg (by omega), toDigitsCore_step, if_pos (by omega)]
      have e1 : (k + 1) / 1000 = 0 := by omega
      have e2 : (k + 1) / 100 % 10 = 0 := by omega
      have e3 : (k + 1) / 10 % 10 = (k + 1) / 10 := by omega
      rw [e1, e2, e3]
      rfl
    · by_cases h3 : n < 1000
      · obtain ⟨k, rfl⟩ : ∃ k, n = k + 2 := ⟨n - 2, by omega⟩
        rw [show k + 2 + 1 = (k + 2) + 1 from rfl, toDigitsCore_step, if_neg (by omega),
          toDigitsCore_step, if_neg (by omega), toDigitsCore_step, if_pos (by omega)]
        have e1 : (k + 2) / 1000 = 0 := by omega
        have e2 : (k + 2) / 10 / 10 % 10 = (k + 2) / 100 % 10 := by omega
        have e3 : (k + 2) / 100 % 10 = (k + 2) / 100 := by omega
        rw [e1, e2]
        rfl
      · obtain ⟨k, rfl⟩ : ∃ k, n = k + 3 := ⟨n - 3, by omega⟩
        rw [show k + 3 + 1 = (k + 3) + 1 from rfl, toDigitsCore_step, if_neg (by omega),
          toDigitsCore_step, if_neg (by omega), toDigitsCore_step, if_neg (by omega),
          toDigitsCore_step, if_pos (by omega)]
        have e1 : (k + 3) / 10 / 10 / 10 % 10 = (k + 3) / 1000 := by omega
        have e2 : (k + 3) / 10 / 10 % 10 = (k + 3) / 100 % 10 := by omega
        rw [e1, e2]
        rfl

/-- The identifier of a number below 10000. -/
theorem formatWorkerId_small (n : Nat) (h : n < 10000) :
    formatWorkerId (n : Int) = String.mk ('H' :: 'M' :: '_' :: fourDigits n) := by
  have h4 := toDigits_four n h
  unfold formatWorkerId padStart
  rw [numberToString_natCast]
  show "HM_" ++ String.mk (List.replicate (4 - (Nat.toDigits 10 n).length) '0' ++
    Nat.toDigits 10 n) = _
  rw [h4]
  rfl

/-- Decimal digit characters are ordered as the digits. -/
theorem digitChar_lt (a b : Nat) (h : a < b) (hb : b < 10) :
    Nat.digitChar a < Nat.digitChar b := by
  interval_cases b <;> interval_cases a <;> decide

/-- The value of a decimal digit character. -/
theorem digitValue_digitChar (d : Nat) (h : d < 10) :
    digitValue 10 (Nat.digitChar d) = some d := by
  interval_cases d <;> decide

/-- Below 10000 the code point order of the four digits is the order of the numbers. -/
theorem fourDigits_lt (n m : Nat) (h : n < m) (hm : m < 10000) :
    fourDigits n < fourDigits m := by
  unfold fourDigits
  by_cases h1 : n / 1000 < m / 1000
  · exact List.Lex.rel (digitChar_lt _ _ h1 (by omega))
  · have e1 : n / 1000 = m / 1000 := by omega
    rw [e1]
    refine List.Lex.cons ?_
    by_cases h2 : n / 100 % 10 < m / 100 % 10
    · exact List.Lex.rel (digitChar_lt _ _ h2 (by omega))
    · have e2 : n / 100 % 10 = m / 100 % 10 := by omega
      rw [e2]
      refine List.Lex.cons ?_
      by_cases h3 : n / 10 % 10 < m / 10 % 10
      · exact List.Lex.rel (digitChar_lt _ _ h3 (by omega))
      · have e3 : n / 10 % 10 = m / 10 % 10 := by omega
        rw [e3]
        refine List.Lex.cons ?_
        exact List.Lex.rel (digitChar_lt _ _ (by omega) (by omega))

/-- Below 10000 the string order of the identifiers is the order of the numbers. -/
theorem formatWorkerId_lt (n m : Nat) (h : n < m) (hm : m < 10000) :
    valLt (.str (formatWorkerId (n : Int))) (.str (formatWorkerId (m : Int))) = true := by
  rw [formatWorkerId_small n (by omega), formatWorkerId_small m hm]
  simp only [valLt, decide_eq_true_eq]
  refine List.Lex.cons ?_
  refine List.Lex.cons ?_
  refine List.Lex.cons ?_
  exact fourDigits_lt n m h hm

/-- Below 10000 the allocator reads back the number of an identifier. -/
theorem parse_formatWorkerId (n : Nat) (h : n < 10000) :
    (parseInt (replaceFirst "HM_".data [] (formatWorkerId (n : Int)).data)).getD 0 = (n : Int) := by
  rw [formatWorkerId_small n h]
  have h1 : replaceFirst "HM_".data [] (String.mk ('H' :: 'M' :: '_' :: fourDigits n)).data
      = fourDigits n := replaceFirst_at_start (fourDigits n)
  rw [h1]
  have hd : ∀ d, d < 10 → (digitValue 10 (Nat.digitChar d)).isSome = true := by
    intro d hd
    rw [digitValue_digitChar d hd]
    rfl
  have h2 := parseInt_leading_digits (fourDigits n) [] (by simp [fourDigits])
    (by
      intro c hc
      simp only [fourDigits, List.mem_cons, List.mem_singleton, List.not_mem_nil,
        or_false] at hc
      rcases hc with rfl | rfl | rfl | rfl <;> exact hd _ (by omega))
    (by simp) (by simp [fourDigits])
  rw [List.append_nil] at h2
  rw [h2]
  simp only [Option.getD_some, digitsValue, fourDigits, List.foldl_cons, List.foldl_nil]
  rw [digitValue_digitChar _ (by omega), digitValue_digitChar _ (by omega),
    digitValue_digitChar _ (by omega), digitValue_digitChar _ (by omega)]
  simp only [Option.getD_some]
  congr 1
  omega

/-- Distinct decimal digits have distinct characters. -/
theorem digitChar_inj (a b : Nat) (ha : a < 10) (hb : b < 10)
    (h : Nat.digitChar a = Nat.digitChar b) : a = b := by
  interval_cases a <;> interval_cases b <;> first | rfl | (revert h; decide)

/-- Distinct numbers below 100000 have distinct digit texts. -/
theorem fiveDigits_inj (i j : Nat) (hi : i < 100000) (hj : j < 100000)
    (h : fiveDigits i = fiveDigits j) : i = j := by
  simp only [fiveDigits, List.cons.injEq, and_true] at h
  obtain ⟨h1, h2, h3, h4, h5⟩ := h
  have e1 := digitChar_inj _ _ (by omega) (by omega) h1
  have e2 := digitChar_inj _ _ (by omega) (by omega) h2
  have e3 := digitChar_inj _ _ (by omega) (by omega) h3
  have e4 := digitChar_inj _ _ (by omega) (by omega) h4
  have e5 := digitChar_inj _ _ (by omega) (by omega) h5
  omega

/-- The emails of the run are pairwise distinct. -/
theorem nthEmail_inj (i j : Nat) (hi : i < 100000) (hj : j < 100000)
    (h : nthEmail i = nthEmail j) : i = j := by
  have h1 := congrArg String.data h
  simp only [nthEmail, List.cons_append, List.cons.injEq, true_and,
    List.append_cancel_right_eq] at h1
  exact fiveDigits_inj i j hi hj h1

/-- The account identifiers of the run are pairwise distinct. -/
theorem nthUid_inj (i j : Nat) (hi : i < 100000) (hj : j < 100000)
    (h : nthUid i = nthUid j) : i = j := by
  have h1 := congrArg String.data h
  simp only [nthUid, List.cons.injEq, true_and] at h1
  exact fiveDigits_inj i j hi hj h1

/-- Setting a key that is absent adds the binding at the end. -/
theorem assocSet_absent {β : Type} (l : List (String × β)) (k : String) (v : β)
    (h : ∀ e ∈ l, e.1 ≠ k) : assocSet l k v = l ++ [(k, v)] := by
  induction l with
  | nil => rfl
  | cons hd tl ih =>
    obtain ⟨k0, v0⟩ := hd
    have h0 : k0 ≠ k := h (k0, v0) (List.mem_cons_self _ _)
    simp only [assocSet, h0, if_false, List.cons_append]
    rw [ih (fun e he => h e (List.mem_cons_of_mem _ he))]

/-- The greatest stored identifier after `n + 1` calls of the run: it stays at `HM_9999`
once `HM_10000` is stored. -/
theorem topWorkerId_stateAfter (n : Nat) (h : n < 10000) :
    topWorkerId (stateAfter (n + 1)).workers =
      some (.str (formatWorkerId ((min (n + 1) 9999 : Nat) : Int))) := by
  induction n with
  | zero => decide
  | succ k ih =>
    have ih := ih (by omega)
    unfold topWorkerId at ih ⊢
    simp only [stateAfter] at ih ⊢
    rw [List.range_succ, List.map_append, List.foldl_append, ih]
    simp only [List.map_cons, List.map_nil, List.foldl_cons, List.foldl_nil]
    have hf : assocGet (workerAt (k + 1)).2 "worker_id" = some (.str (idAt (k + 1))) :=
      workerData_worker_id _ _
    by_cases hk : k + 1 < 9999
    · have e1 : min (k + 1) 9999 = k + 1 := by omega
      have e2 : min (k + 1 + 1) 9999 = k + 1 + 1 := by omega
      have hid : idAt (k + 1) = formatWorkerId ((k + 1 + 1 : Nat) : Int) := by
        unfold idAt
        rw [e1]
      have hlt := formatWorkerId_lt (k + 1) (k + 1 + 1) (by omega) (by omega)
      rw [e1, e2]
      simp only [keepGreater, hf, hid, hlt, if_true]
    · have e0 : k + 1 = 9999 := by omega
      rw [e0] at hf ⊢
      simp only [keepGreater, hf]
      decide

/-- The identifier allocated on the state after `n` calls of the run. -/
theorem generateWorkerId_stateAfter (n now : Nat) (h : n ≤ 10000) :
    generateWorkerId (stateAfter n).workers none now = idAt n := by
  cases n with
  | zero =>
    have h0 : topWorkerId (stateAfter 0).workers = none := by decide
    simp only [generateWorkerId, h0]
    decide
  | succ k =>
    rw [generateWorkerId_of_top _ _ _ (topWorkerId_stateAfter k (by omega)),
      parse_formatWorkerId _ (by omega)]
    unfold idAt
    push_cast
    rfl

/-- The email of call number `n` is new in the state after `n` calls. -/
theorem find_stateAfter (n : Nat) (h : n < 100000) :
    (stateAfter n).accounts.find? (fun a => a.email = nthEmail n) = none := by
  rw [List.find?_eq_none]
  intro a ha
  simp only [stateAfter, List.mem_map, List.mem_range] at ha
  obtain ⟨i, hi, rfl⟩ := ha
  simp only [accountAt, decide_eq_true_eq]
  intro he
  have := nthEmail_inj i n (by omega) h he
  omega

/-- The identifier of call number `n` has no worker document after `n` calls. -/
theorem uid_fresh_workers (n : Nat) (h : n < 100000) :
    ∀ e ∈ (stateAfter n).workers, e.1 ≠ nthUid n := by
  intro e he
  simp only [stateAfter, List.mem_map, List.mem_range] at he
  obtain ⟨i, hi, rfl⟩ := he
  intro hu
  have := nthUid_inj i n (by omega) h hu
  omega

/-- The identifier of call number `n` has no user document after `n` calls. -/
theorem uid_fresh_users (n : Nat) (h : n < 100000) :
    ∀ e ∈ (stateAfter n).users, e.1 ≠ nthUid n := by
  intro e he
  simp only [stateAfter, List.mem_map, List.mem_range] at he
  obtain ⟨i, hi, rfl⟩ := he
  intro hu
  have := nthUid_inj i n (by omega) h hu
  omega

/-- The emails of the run are not empty. -/
theorem nthEmail_ne_empty (n : Nat) : nthEmail n ≠ "" := by
  intro h
  have := congrArg String.data h
  simp [nthEmail] at this

/-- Call number `n` of the run, made on the state after `n` calls. -/
theorem call_on_stateAfter (n : Nat) (h : n ≤ 10000) :
    createWorkerAccount (nthCall n).1 (stateAfter n) true (some (nthCall n).2) = outcomeAt n := by
  have hfind := find_stateAfter n (by omega)
  have hl : getUserByEmail (quietEnv (nthUid n)) (stateAfter n) (nthEmail n)
      = .error userNotFound := by
    simp [getUserByEmail, quietEnv, hfind]
  have hcu : createUser (quietEnv (nthUid n)) (stateAfter n) (nthEmail n) "pass-1234"
      = .ok (accountAt n, { stateAfter n with
          accounts := (stateAfter n).accounts ++ [accountAt n] }) := by
    rw [createUser_ok_iff]
    exact ⟨rfl, find_none_any hfind, rfl, rfl⟩
  simp only [nthCall]
  rw [createWorkerAccount_valid _ _ _ _ _ _ (nthEmail_ne_empty n) (by decide),
    tryBlock_not_found _ _ _ _ _ _ _ hl rfl,
    createAndWrite_created _ _ _ _ _ _ _ _ _ _ hcu,
    writeRecords_committed _ _ _ _ _ _ _ rfl]
  have hid : generateWorkerId (stateAfter n).workers (quietEnv (nthUid n)).queryFault
      (quietEnv (nthUid n)).now = idAt n := generateWorkerId_stateAfter n _ h
  simp only [hid, accountAt]
  rw [assocSet_absent _ _ _ (uid_fresh_workers n (by omega)),
    assocSet_absent _ _ _ (uid_fresh_users n (by omega))]
  simp [outcomeAt, stateAfter, List.range_succ, accountAt, workerAt, userAt]

/-- The run in closed form: final state and outcomes of the first `n` calls. -/
theorem runCalls_closed_form (n : Nat) (h : n ≤ 10001) :
    runCalls emptyState (newWorkerCalls n) = (stateAfter n, (List.range n).map outcomeAt) := by
  induction n with
  | zero => rfl
  | succ k ih =>
    have ih := ih (by omega)
    unfold runCalls newWorkerCalls at ih ⊢
    rw [List.range_succ, List.map_append, List.foldl_append, ih]
    simp only [List.map_cons, List.map_nil, List.foldl_cons, List.foldl_nil]
    rw [call_on_stateAfter k (by omega)]
    simp [outcomeAt, List.range_succ]

/-- Every call of the run succeeds and creates its account. -/
theorem run_all_ok (n : Nat) (h : n ≤ 10001) :
    ∀ o ∈ (runCalls emptyState (newWorkerCalls n)).2,
      ∃ r, o.result = .ok r ∧ r.success = true ∧ r.alreadyExists = false := by
  rw [runCalls_closed_form n h]
  intro o ho
  obtain ⟨i, _, rfl⟩ := List.mem_map.mp ho
  exact ⟨_, rfl, rfl, rfl⟩

/-- No call of the run has its allocation query rejected. -/
theorem calls_all_quiet (n : Nat) : ∀ c ∈ newWorkerCalls n, c.1.queryFault = none := by
  intro c hc
  obtain ⟨i, _, rfl⟩ := List.mem_map.mp hc
  rfl

/-- The result of call number `i` of the run. -/
theorem run_result_at (n i : Nat) (h : n ≤ 10001) (hi : i < n) :
    ((runCalls emptyState (newWorkerCalls n)).2.map (fun o => o.result))[i]? =
      some (.ok ⟨true, nthUid i, some (.str (idAt i)),
        "Worker account created successfully", false⟩) := by
  rw [runCalls_closed_form n h]
  simp only
  rw [List.map_map, List.getElem?_map, List.getElem?_range hi]
  rfl

/-- The emails of the first `n` calls are pairwise distinct. -/
theorem emails_distinct (n : Nat) (h : n ≤ 100000) : ((List.range n).map nthEmail).Nodup := by
  refine (List.nodup_map_iff_inj_on (List.nodup_range _)).mpr ?_
  intro i hi j hj he
  exact nthEmail_inj i j (by have := List.mem_range.mp hi; omega)
    (by have := List.mem_range.mp hj; omega) he

/-- C1 fails past 9999. From the empty state, 10001 authenticated, valid calls with
pairwise distinct new emails, none of which meets a rejection, all succeed; call number
10000 and call number 10001 (indices 9999 and 10000) both return `HM_10000`, for two
different accounts. After `HM_10000` is stored the greatest identifier in code point
order is still `HM_9999`. -/
theorem identifier_repeats_past_9999 :
    ((List.range 10001).map nthEmail).Nodup ∧
      (∀ c ∈ newWorkerCalls 10001, c.1.queryFault = none) ∧
      (∀ o ∈ (runCalls emptyState (newWorkerCalls 10001)).2,
        ∃ r, o.result = .ok r ∧ r.success = true ∧ r.alreadyExists = false) ∧
      ((runCalls emptyState (newWorkerCalls 10001)).2.map (fun o => o.result))[9999]? =
        some (.ok ⟨true, nthUid 9999, some (.str "HM_10000"),
          "Worker account created successfully", false⟩) ∧
      ((runCalls emptyState (newWorkerCalls 10001)).2.map (fun o => o.result))[10000]? =
        some (.ok ⟨true, nthUid 10000, some (.str "HM_10000"),
          "Worker account created successfully", false⟩) ∧
      nthUid 9999 ≠ nthUid 10000 ∧
      topWorkerId (stateAfter 10000).workers = some (.str "HM_9999") := by
  have e1 : idAt 9999 = "HM_10000" := by decide
  have e2 : idAt 10000 = "HM_10000" := by decide
  have e3 : formatWorkerId ((min (9999 + 1) 9999 : Nat) : Int) = "HM_9999" := by decide
  refine ⟨emails_distinct _ (by omega), calls_all_quiet _, run_all_ok _ (by omega), ?_, ?_,
    ?_, ?_⟩
  · rw [← e1]
    exact run_result_at _ _ (by omega) (by omega)
  · rw [← e2]
    exact run_result_at _ _ (by omega) (by omega)
  · decide
  · rw [← e3]
    exact topWorkerId_stateAfter 9999 (by omega)

end Fixmate
